import Mathlib

/-!
# Verification of the x402-sdk-for-solana payment pipeline

A shallow embedding of the x402 Solana payment SDK:

* the facilitator's transaction introspector
  (`lib/x402/schemes/exact/svm/facilitator/verify.ts`),
* the settle engine (`lib/x402/schemes/exact/svm/facilitator/settle.ts`),
* the Express payment middleware (`lib/x402-express/index.ts`),
* route matching and price conversion (`lib/x402/shared/middleware.ts`).

Thrown JavaScript `Error` objects are modelled by their `message` string;
`Except String α` models a computation that may throw.  External effects
(RPC fetches, transaction decode, signing, confirmation) are supplied as
explicit environment values, so every operation is a pure function of its
inputs and its environment, mirroring the determinism of the source given
fixed RPC responses.
-/

deriving instance DecidableEq for Except

namespace X402

/-- The closed list of error reasons from `lib/x402/types/verify/x402Specs.ts`
(`ErrorReasons`), duplicates included exactly as in the source. -/
def ErrorReasons : List String := [
  "insufficient_funds",
  "invalid_exact_evm_payload_authorization_valid_after",
  "invalid_exact_evm_payload_authorization_valid_before",
  "invalid_exact_evm_payload_authorization_value",
  "invalid_exact_evm_payload_signature",
  "invalid_exact_evm_payload_recipient_mismatch",
  "invalid_exact_svm_payload_transaction",
  "invalid_exact_svm_payload_transaction_amount_mismatch",
  "invalid_exact_svm_payload_transaction_create_ata_instruction",
  "invalid_exact_svm_payload_transaction_create_ata_instruction_incorrect_payee",
  "invalid_exact_svm_payload_transaction_create_ata_instruction_incorrect_asset",
  "invalid_exact_svm_payload_transaction_instructions",
  "invalid_exact_svm_payload_transaction_instructions_length",
  "invalid_exact_svm_payload_transaction_instructions_compute_limit_instruction",
  "invalid_exact_svm_payload_transaction_instructions_compute_price_instruction",
  "invalid_exact_svm_payload_transaction_instructions_compute_price_instruction_too_high",
  "invalid_exact_svm_payload_transaction_instruction_not_spl_token_transfer_checked",
  "invalid_exact_svm_payload_transaction_instruction_not_token_2022_transfer_checked",
  "invalid_exact_svm_payload_transaction_not_a_transfer_instruction",
  "invalid_exact_svm_payload_transaction_receiver_ata_not_found",
  "invalid_exact_svm_payload_transaction_sender_ata_not_found",
  "invalid_exact_svm_payload_transaction_simulation_failed",
  "invalid_exact_svm_payload_transaction_transfer_to_incorrect_ata",
  "invalid_network",
  "invalid_payload",
  "invalid_payment_requirements",
  "invalid_scheme",
  "invalid_payment",
  "payment_expired",
  "unsupported_scheme",
  "invalid_x402_version",
  "invalid_transaction_state",
  "invalid_x402_version",
  "settle_exact_svm_block_height_exceeded",
  "settle_exact_svm_transaction_confirmation_timed_out",
  "unsupported_scheme",
  "unexpected_settle_error",
  "unexpected_verify_error"]

/-- `TOKEN_PROGRAM_ADDRESS` from `@solana-program/token`. -/
def TOKEN_PROGRAM_ADDRESS : String := "TokenkegQfeZyiNwAJbNbGKPFXCWuBvf9Ss623VQ5DA"

/-- `TOKEN_2022_PROGRAM_ADDRESS` from `@solana-program/token-2022`. -/
def TOKEN_2022_PROGRAM_ADDRESS : String := "TokenzQdBNbLqP5VEhdkAS6EPFLC1PHnBqCXEpPxuEb"

/-- `COMPUTE_BUDGET_PROGRAM_ADDRESS` from `@solana-program/compute-budget`. -/
def COMPUTE_BUDGET_PROGRAM_ADDRESS : String := "ComputeBudget111111111111111111111111111111"

/-- `SCHEME` exported by `lib/x402/schemes/exact/index.ts`. -/
def SCHEME : String := "exact"

/-- `SupportedSVMNetworks` from `lib/x402/types/shared/network.ts`. -/
def SupportedSVMNetworks : List String := ["solana-devnet", "solana"]

/-- One instruction of a decompiled transaction message.  Account metas are
reduced to their addresses (in instruction order) and the instruction data to
its byte list; this is all the introspector reads. -/
structure SvmInstruction where
  programAddress : String
  accounts : List String
  data : List Nat
  deriving Repr, DecidableEq, Inhabited

/-- A decoded transaction, reduced to the instruction list of its (decompiled)
message — the only part the introspector and `getTokenPayerFromTransaction`
consume.  The static-account indirection of the compiled message is resolved:
`accounts` already holds addresses. -/
structure DecodedTx where
  instructions : List SvmInstruction
  deriving Repr, DecidableEq, Inhabited

/-- `PaymentRequirements` (the fields the SVM facilitator reads). -/
structure PaymentRequirements where
  scheme : String
  network : String
  maxAmountRequired : String
  payTo : String
  asset : String
  feePayer : Option String
  deriving Repr, DecidableEq, Inhabited

/-- `PaymentPayload` (the fields the SVM facilitator reads; the base64
transaction itself is carried separately by the decode environment). -/
structure PaymentPayload where
  x402Version : Nat
  scheme : String
  network : String
  deriving Repr, DecidableEq, Inhabited

/-- Little-endian byte-list to natural number. -/
def leToNat : List Nat → Nat
  | [] => 0
  | b :: bs => b + 256 * leToNat bs

/-- `verifySchemesAndNetworks` (verify.ts, lines 135-149). -/
def verifySchemesAndNetworks (payload : PaymentPayload) (req : PaymentRequirements) :
    Except String Unit := do
  if payload.scheme ≠ SCHEME ∨ req.scheme ≠ SCHEME then
    throw "unsupported_scheme"
  if payload.network ≠ req.network ∨ req.network ∉ SupportedSVMNetworks then
    throw "invalid_network"
  pure ()

/-- Stand-in message for a codec failure thrown by a `@solana/kit` data
decoder (a `SolanaError`); its message is not one of the x402 `ErrorReasons`. -/
def codecDecodeErr : String := "codec decode failure: not enough bytes"

/-- Stand-in message for the `SolanaError` thrown by
`identifyTokenInstruction` / `identifyToken2022Instruction` on data that
matches no known discriminator; not one of the x402 `ErrorReasons`. -/
def unidentifiedInstructionErr : String :=
  "The provided instruction could not be identified"

def computeLimitErr : String :=
  "invalid_exact_svm_payload_transaction_instructions_compute_limit_instruction"

def computePriceErr : String :=
  "invalid_exact_svm_payload_transaction_instructions_compute_price_instruction"

def computePriceTooHighErr : String :=
  "invalid_exact_svm_payload_transaction_instructions_compute_price_instruction_too_high"

def instructionsLengthErr : String :=
  "invalid_exact_svm_payload_transaction_instructions_length"

def instructionsErr : String := "invalid_exact_svm_payload_transaction_instructions"

def notSplTransferErr : String :=
  "invalid_exact_svm_payload_transaction_instruction_not_spl_token_transfer_checked"

def not2022TransferErr : String :=
  "invalid_exact_svm_payload_transaction_instruction_not_token_2022_transfer_checked"

def notATransferErr : String :=
  "invalid_exact_svm_payload_transaction_not_a_transfer_instruction"

def createAtaErr : String := "invalid_exact_svm_payload_transaction_create_ata_instruction"

def createAtaPayeeErr : String :=
  "invalid_exact_svm_payload_transaction_create_ata_instruction_incorrect_payee"

def createAtaAssetErr : String :=
  "invalid_exact_svm_payload_transaction_create_ata_instruction_incorrect_asset"

def transferIncorrectAtaErr : String :=
  "invalid_exact_svm_payload_transaction_transfer_to_incorrect_ata"

def senderAtaNotFoundErr : String :=
  "invalid_exact_svm_payload_transaction_sender_ata_not_found"

def receiverAtaNotFoundErr : String :=
  "invalid_exact_svm_payload_transaction_receiver_ata_not_found"

def amountMismatchErr : String :=
  "invalid_exact_svm_payload_transaction_amount_mismatch"

def simulationFailedErr : String :=
  "invalid_exact_svm_payload_transaction_simulation_failed"

/-- `verifyComputeLimitInstruction` (verify.ts, lines 236-258).  The whole body
— the program/discriminator guard and `parseSetComputeUnitLimitInstruction`
(data layout u8 discriminator + u32, so the codec needs at least 5 bytes) —
sits in a try/catch that maps every failure to the compute-limit reason. -/
def verifyComputeLimitInstruction (i : SvmInstruction) : Except String Unit :=
  if i.programAddress = COMPUTE_BUDGET_PROGRAM_ADDRESS ∧ i.data.head? = some 2
      ∧ 5 ≤ i.data.length then
    .ok ()
  else
    .error computeLimitErr

/-- `parseSetComputeUnitPriceInstruction` from `@solana-program/compute-budget`:
data layout is u8 discriminator followed by u64 `microLamports`
(little-endian); the codec throws when fewer than 9 bytes are present. -/
def parseSetComputeUnitPriceMicroLamports (i : SvmInstruction) : Except String Nat :=
  if 9 ≤ i.data.length then
    .ok (leToNat ((i.data.drop 1).take 8))
  else
    .error codecDecodeErr

/-- `verifyComputePriceInstruction` (verify.ts, lines 268-290).  Unlike the
compute-limit check there is no try/catch here: a codec failure inside
`parseSetComputeUnitPriceInstruction` propagates to the caller unchanged. -/
def verifyComputePriceInstruction (i : SvmInstruction) : Except String Unit := do
  if ¬ (i.programAddress = COMPUTE_BUDGET_PROGRAM_ADDRESS ∧ i.data.head? = some 3) then
    throw computePriceErr
  let micro ← parseSetComputeUnitPriceMicroLamports i
  if micro > 5 * 1000000 then
    throw computePriceTooHighErr
  pure ()

/-- `assertIsInstructionWithAccounts` from `@solana/kit`: in a decompiled
message an instruction with no accounts has the field absent, making the
assertion throw. -/
def assertIsInstructionWithAccounts (i : SvmInstruction) : Except String Unit :=
  if i.accounts = [] then .error "instruction has no accounts" else .ok ()

/-- `assertIsInstructionWithData` from `@solana/kit`: an instruction with empty
data has the field absent in the decompiled message, so the assertion throws. -/
def assertIsInstructionWithData (i : SvmInstruction) : Except String Unit :=
  if i.data = [] then .error "instruction has no data" else .ok ()

/-- The accounts of a parsed `CreateAssociatedToken` instruction that
`verifyCreateATAInstruction` reads. -/
structure ParsedCreateAta where
  owner : String
  mint : String
  deriving Repr, DecidableEq

/-- `parseCreateAssociatedTokenInstruction` from `@solana-program/token-2022`:
the account order is `[payer, ata, owner, mint, systemProgram, tokenProgram]`
(so at least 6 accounts) and the data is a 1-byte discriminator; the parser
does not check the program address. -/
def parseCreateAssociatedTokenInstruction (i : SvmInstruction) :
    Except String ParsedCreateAta :=
  if 6 ≤ i.accounts.length ∧ 1 ≤ i.data.length then
    .ok { owner := i.accounts.getD 2 "", mint := i.accounts.getD 3 "" }
  else
    .error codecDecodeErr

/-- `verifyCreateATAInstruction` (verify.ts, lines 299-332): the assertions and
the parse sit in a try/catch mapping any failure to the create-ATA reason; the
payee and asset comparisons follow outside the catch. -/
def verifyCreateATAInstruction (i : SvmInstruction) (req : PaymentRequirements) :
    Except String Unit := do
  let parsed ← match (do
      assertIsInstructionWithAccounts i
      assertIsInstructionWithData i
      parseCreateAssociatedTokenInstruction i : Except String ParsedCreateAta) with
    | .ok p => Except.ok p
    | .error _ => Except.error createAtaErr
  if parsed.owner ≠ req.payTo then
    throw createAtaPayeeErr
  if parsed.mint ≠ req.asset then
    throw createAtaAssetErr
  pure ()

/-- Result of `identifyTokenInstruction` / `identifyToken2022Instruction`:
only the `TransferChecked` row (discriminator 12) is load-bearing here. -/
inductive TokenInstructionKind
  | transferChecked
  | otherKnown
  deriving Repr, DecidableEq

/-- `identifyTokenInstruction` from `@solana-program/token`: the discriminator
table maps byte 12 to `TransferChecked`; other known SPL-token opcodes
(0 to 24) map to other variants, anything else throws. -/
def identifyTokenInstruction (i : SvmInstruction) : Except String TokenInstructionKind :=
  match i.data.head? with
  | some 12 => .ok .transferChecked
  | some b => if b ≤ 24 then .ok .otherKnown else .error unidentifiedInstructionErr
  | none => .error unidentifiedInstructionErr

/-- `identifyToken2022Instruction` from `@solana-program/token-2022`: same
shape as `identifyTokenInstruction` with the larger Token-2022 opcode table
(discriminator 12 is again `TransferChecked`). -/
def identifyToken2022Instruction (i : SvmInstruction) : Except String TokenInstructionKind :=
  match i.data.head? with
  | some 12 => .ok .transferChecked
  | some b => if b ≤ 43 then .ok .otherKnown else .error unidentifiedInstructionErr
  | none => .error unidentifiedInstructionErr

/-- The fields of a parsed `TransferChecked` instruction that the verifier
reads.  Account order is `[source, mint, destination, authority]`; data layout
is u8 discriminator, u64 amount (little-endian), u8 decimals. -/
structure ParsedTransferChecked where
  programAddress : String
  source : String
  mint : String
  destination : String
  authority : String
  amount : Nat
  decimals : Nat
  deriving Repr, DecidableEq

/-- `parseTransferCheckedInstruction` (both token programs): needs at least 4
accounts and 10 data bytes, otherwise the codec throws. -/
def parseTransferCheckedInstruction (i : SvmInstruction) :
    Except String ParsedTransferChecked :=
  if 4 ≤ i.accounts.length ∧ 10 ≤ i.data.length then
    .ok { programAddress := i.programAddress,
          source := i.accounts.getD 0 "",
          mint := i.accounts.getD 1 "",
          destination := i.accounts.getD 2 "",
          authority := i.accounts.getD 3 "",
          amount := leToNat ((i.data.drop 1).take 8),
          decimals := i.data.getD 9 0 }
  else
    .error codecDecodeErr

/-- `getValidatedTransferCheckedInstruction` (verify.ts, lines 428-476).  Only
the two `assertIsInstruction...` calls are inside a try/catch (mapped to
`invalid_..._instructions`); identification and parsing failures propagate
unchanged. -/
def getValidatedTransferCheckedInstruction (i : SvmInstruction) :
    Except String ParsedTransferChecked := do
  match (do
      assertIsInstructionWithData i
      assertIsInstructionWithAccounts i : Except String Unit) with
    | .ok _ => Except.ok ()
    | .error _ => Except.error instructionsErr
  if i.programAddress = TOKEN_PROGRAM_ADDRESS then
    let k ← identifyTokenInstruction i
    if k ≠ .transferChecked then
      throw notSplTransferErr
    parseTransferCheckedInstruction i
  else if i.programAddress = TOKEN_2022_PROGRAM_ADDRESS then
    let k ← identifyToken2022Instruction i
    if k ≠ .transferChecked then
      throw not2022TransferErr
    parseTransferCheckedInstruction i
  else
    throw notATransferErr

/-- The token program the verifier attributes to a parsed transfer
(verify.ts, lines 382-385): SPL Token if the instruction's program is SPL
Token, Token-2022 otherwise. -/
def transferTokenProgram (p : ParsedTransferChecked) : String :=
  if p.programAddress = TOKEN_PROGRAM_ADDRESS then TOKEN_PROGRAM_ADDRESS
  else TOKEN_2022_PROGRAM_ADDRESS

/-- Environment of the introspector: the deterministic
`findAssociatedTokenPda` derivation `(mint, owner, tokenProgram) ↦ address`
and the outcome of the `fetchEncodedAccounts` RPC call (`.error` models a
rejected promise; `.ok f` gives each address's existence). -/
structure IntroEnv where
  ataDerive : String → String → String → String
  fetchAccounts : Except String (String → Bool)

/-- `BigInt(string)` on the requirement's amount string: decimal digit strings
(and the empty string, which `BigInt` maps to 0) convert; anything else throws
a `SyntaxError` whose message is not an x402 reason.  (Whitespace trimming and
radix prefixes of `BigInt` are omitted: the schema constrains the field to a
decimal integer.) -/
def bigIntOfString (s : String) : Except String Nat :=
  if s.toList.all Char.isDigit then
    .ok (s.toList.foldl (fun n c => 10 * n + (c.toNat - 48)) 0)
  else
    .error "Cannot convert the string to a BigInt"

/-- `verifyTransferCheckedInstruction` (verify.ts, lines 375-418): destination
ATA check, then account existence (source first, as in the `missingAccounts`
loop over `[source, payToATA]`), then the exact amount comparison. -/
def verifyTransferCheckedInstruction (env : IntroEnv) (p : ParsedTransferChecked)
    (req : PaymentRequirements) (txHasCreateDestATAInstruction : Bool) :
    Except String Unit := do
  let payToATA := env.ataDerive req.asset req.payTo (transferTokenProgram p)
  if p.destination ≠ payToATA then
    throw transferIncorrectAtaErr
  let acctExists ← env.fetchAccounts
  if acctExists p.source = false then
    throw senderAtaNotFoundErr
  if acctExists payToATA = false ∧ txHasCreateDestATAInstruction = false then
    throw receiverAtaNotFoundErr
  let paymentRequirementsAmount ← bigIntOfString req.maxAmountRequired
  if p.amount ≠ paymentRequirementsAmount then
    throw amountMismatchErr
  pure ()

/-- `verifyTransferInstruction` (verify.ts, lines 344-363). -/
def verifyTransferInstruction (env : IntroEnv) (i : SvmInstruction)
    (req : PaymentRequirements) (txHasCreateDestATAInstruction : Bool) :
    Except String Unit := do
  let tokenInstruction ← getValidatedTransferCheckedInstruction i
  verifyTransferCheckedInstruction env tokenInstruction req txHasCreateDestATAInstruction

/-- `verifyTransactionInstructions` (verify.ts, lines 185-228). -/
def verifyTransactionInstructions (env : IntroEnv) (instructions : List SvmInstruction)
    (req : PaymentRequirements) : Except String Unit := do
  if instructions.length ≠ 3 ∧ instructions.length ≠ 4 then
    throw instructionsLengthErr
  verifyComputeLimitInstruction (instructions.getD 0 default)
  verifyComputePriceInstruction (instructions.getD 1 default)
  if instructions.length = 3 then
    verifyTransferInstruction env (instructions.getD 2 default) req false
  else
    verifyCreateATAInstruction (instructions.getD 2 default) req
    verifyTransferInstruction env (instructions.getD 3 default) req true

/-! ## The verify / settle engine -/

/-- `decodeTransactionFromPayload` (`lib/x402/shared/svm/index.ts`): the decode
of the payload's base64 transaction is deterministic, so it is carried as an
`Option DecodedTx` in the environment; `none` makes the function throw
`invalid_exact_svm_payload_transaction`. -/
def decodeTransactionFromPayload (d : Option DecodedTx) : Except String DecodedTx :=
  match d with
  | some tx => .ok tx
  | none => .error "invalid_exact_svm_payload_transaction"

/-- `getTokenPayerFromTransaction` (`lib/x402/shared/svm/index.ts`): the first
token-program instruction with at least 4 accounts whose fourth account
(the TransferChecked authority) is a non-empty address yields the payer;
otherwise the empty string. -/
def getTokenPayerFromTransaction (tx : DecodedTx) : String :=
  match tx.instructions.find? (fun ix =>
      (ix.programAddress == TOKEN_PROGRAM_ADDRESS
        || ix.programAddress == TOKEN_2022_PROGRAM_ADDRESS)
      && 4 ≤ ix.accounts.length && ix.accounts.getD 3 "" != "") with
  | some ix => ix.accounts.getD 3 ""
  | none => ""

/-- `VerifyResponse`. -/
structure VerifyResponse where
  isValid : Bool
  invalidReason : Option String
  payer : Option String
  deriving Repr, DecidableEq

/-- Environment of `verify`: the decoded transaction (deterministic per
payload) and the outcome of `signAndSimulateTransaction` — `.error` is a
rejected RPC promise, `.ok b` a simulation result whose `value.err` is
non-null exactly when `b` is `true`. -/
structure VerifyEnv where
  decodedTx : Option DecodedTx
  intro : IntroEnv
  simulate : Except String Bool

/-- The body of `verify`'s try block (verify.ts, lines 70-92): scheme/network
check, decode, introspection (which decodes again), simulation.  Returns the
payer on success. -/
def verifyPipeline (env : VerifyEnv) (payload : PaymentPayload)
    (req : PaymentRequirements) : Except String String := do
  verifySchemesAndNetworks payload req
  let tx ← decodeTransactionFromPayload env.decodedTx
  let tx2 ← decodeTransactionFromPayload env.decodedTx
  verifyTransactionInstructions env.intro tx2.instructions req
  let simulateErr ← env.simulate
  if simulateErr then
    throw simulationFailedErr
  pure (getTokenPayerFromTransaction tx)

/-- The payer recomputed inside `verify`'s catch handler, with its own
try/catch collapsing a decode failure to `undefined`. -/
def payerOnFailure (env : VerifyEnv) : Option String :=
  match env.decodedTx with
  | some tx => some (getTokenPayerFromTransaction tx)
  | none => none

/-- `verify` (verify.ts, lines 64-127): it never throws — the entire body sits
in a try/catch whose handler maps messages in `ErrorReasons` to themselves and
everything else to `unexpected_verify_error`. -/
def verify (env : VerifyEnv) (payload : PaymentPayload) (req : PaymentRequirements) :
    VerifyResponse :=
  match verifyPipeline env payload req with
  | .ok payer => { isValid := true, invalidReason := none, payer := some payer }
  | .error e =>
    if e ∈ ErrorReasons then
      { isValid := false, invalidReason := some e, payer := payerOnFailure env }
    else
      { isValid := false, invalidReason := some "unexpected_verify_error",
        payer := payerOnFailure env }

/-- `SettleResponse`. -/
structure SettleResponse where
  success : Bool
  errorReason : Option String
  payer : Option String
  transaction : String
  network : String
  deriving Repr, DecidableEq

/-- `getRpcClient` (`lib/x402/shared/svm/rpc.ts`): throws `Invalid network`
outside the two supported Solana networks.  (The client object itself is
irrelevant here.) -/
def getRpcClient (network : String) : Except String Unit :=
  if network = "solana-devnet" ∨ network = "solana" then .ok ()
  else .error "Invalid network"

/-- `getRpcSubscriptions` (`lib/x402/shared/svm/rpc.ts`): same network guard as
`getRpcClient`. -/
def getRpcSubscriptions (network : String) : Except String Unit :=
  if network = "solana-devnet" ∨ network = "solana" then .ok ()
  else .error "Invalid network"

/-- Outcome of `waitForRecentTransactionConfirmation` (and of the decompile /
blockhash-lifetime steps preceding it inside the same try block of
`confirmSignedTransaction`):

* `confirmed` — the promise resolved;
* `blockHeightExceeded` — rejected with a `SolanaError` for which
  `isSolanaError(e, SOLANA_ERROR__BLOCK_HEIGHT_EXCEEDED)` holds;
* `aborted` — rejected with a `DOMException` named `AbortError` (the 60-second
  abort timer fired);
* `failed e` — rejected with any other error. -/
inductive ConfirmOutcome
  | confirmed
  | blockHeightExceeded
  | aborted
  | failed (e : String)
  deriving Repr, DecidableEq

/-- Environment of `settle`, extending the verify environment with the
outcomes of the effectful settle steps. -/
structure SettleEnv where
  verifyEnv : VerifyEnv
  /-- `signTransaction([signer.keyPair], decodedTransaction)`: `.error` models
  the kit assertion throwing (transaction not fully signed). -/
  signTx : Except String Unit
  /-- `rpc.sendTransaction(...).send()`: `.error` is a rejected promise. -/
  sendTx : Except String Unit
  confirm : ConfirmOutcome
  /-- `getSignatureFromTransaction(signedTransaction)` (deterministic). -/
  signature : String

/-- The result record of `confirmSignedTransaction` /
`sendAndConfirmSignedTransaction`. -/
structure ConfirmResult where
  success : Bool
  errorReason : Option String
  signature : String
  deriving Repr, DecidableEq

/-- `confirmSignedTransaction` (settle.ts, lines 129-218): resolution →
success; block-height exceedance → `settle_exact_svm_block_height_exceeded`;
abort → `settle_exact_svm_transaction_confirmation_timed_out`; every other
error is rethrown. -/
def confirmSignedTransaction (env : SettleEnv) : Except String ConfirmResult :=
  match env.confirm with
  | .confirmed =>
    .ok { success := true, errorReason := none, signature := env.signature }
  | .blockHeightExceeded =>
    .ok { success := false, errorReason := some "settle_exact_svm_block_height_exceeded",
          signature := env.signature }
  | .aborted =>
    .ok { success := false,
          errorReason := some "settle_exact_svm_transaction_confirmation_timed_out",
          signature := env.signature }
  | .failed e => .error e

/-- `sendAndConfirmSignedTransaction` (settle.ts, lines 228-235): a send
failure is rethrown, otherwise the confirm outcome is returned. -/
def sendAndConfirmSignedTransaction (env : SettleEnv) : Except String ConfirmResult := do
  let _ ← env.sendTx
  confirmSignedTransaction env

/-- `settle` (settle.ts, lines 45-96).  The verify call and the early return
on invalid verification, then — outside any try/catch — the decode, the
fee-payer signing and the RPC-client construction (lines 61-70; failures there
propagate as thrown errors, hence the outer `Except`), and finally the
try/catch around send-and-confirm mapping any exception to
`unexpected_settle_error`. -/
def settle (env : SettleEnv) (payload : PaymentPayload) (req : PaymentRequirements) :
    Except String SettleResponse := do
  let verifyResponse := verify env.verifyEnv payload req
  if verifyResponse.isValid = false then
    return { success := false, errorReason := verifyResponse.invalidReason,
             payer := none, transaction := "", network := payload.network }
  let decodedTransaction ← decodeTransactionFromPayload env.verifyEnv.decodedTx
  let _ ← env.signTx
  let payer := getTokenPayerFromTransaction decodedTransaction
  let _ ← getRpcClient req.network
  let _ ← getRpcSubscriptions req.network
  match sendAndConfirmSignedTransaction env with
  | .ok r =>
    return { success := r.success, errorReason := r.errorReason, payer := some payer,
             transaction := r.signature, network := payload.network }
  | .error _ =>
    return { success := false, errorReason := some "unexpected_settle_error",
             payer := some payer, transaction := env.signature,
             network := payload.network }

/-! ## Route matching (`lib/x402/shared/middleware.ts`) -/

/-- Value of a hexadecimal digit, or `none`. -/
def hexDigitVal (c : Char) : Option Nat :=
  if '0' ≤ c ∧ c ≤ '9' then some (c.toNat - 48)
  else if 'A' ≤ c ∧ c ≤ 'F' then some (c.toNat - 55)
  else if 'a' ≤ c ∧ c ≤ 'f' then some (c.toNat - 87)
  else none

/-- UTF-8 encoding of a character (used to place unescaped characters and
percent-escaped bytes in a single byte stream before decoding, matching the
byte-oriented decoding algorithm of `decodeURIComponent`). -/
def charUtf8 (c : Char) : List Nat :=
  let n := c.toNat
  if n < 0x80 then [n]
  else if n < 0x800 then [0xC0 + n / 64, 0x80 + n % 64]
  else if n < 0x10000 then [0xE0 + n / 4096, 0x80 + n / 64 % 64, 0x80 + n % 64]
  else [0xF0 + n / 262144, 0x80 + n / 4096 % 64, 0x80 + n / 64 % 64, 0x80 + n % 64]

/-- Percent-decoding to a byte stream: `%` followed by two hex digits yields a
byte; `%` followed by anything else is a malformed escape (`none`, the
`URIError` case); other characters contribute their UTF-8 bytes. -/
def pctBytes : List Char → Option (List Nat)
  | [] => some []
  | '%' :: h1 :: h2 :: rest => do
    let a ← hexDigitVal h1
    let b ← hexDigitVal h2
    let tail ← pctBytes rest
    pure ((16 * a + b) :: tail)
  | '%' :: _ => none
  | c :: rest => do
    let tail ← pctBytes rest
    pure (charUtf8 c ++ tail)

/-- Whether a byte is a UTF-8 continuation byte. -/
def isContByte (b : Nat) : Bool := 0x80 ≤ b && b < 0xC0

/-- Strict UTF-8 decoding of a byte stream (rejecting truncated sequences,
stray continuation bytes, overlong encodings, surrogates and values beyond
U+10FFFF), as `decodeURIComponent` requires.  The `fuel` argument only makes
the recursion structural (each step consumes at least one byte, so
`length + 1` fuel always suffices). -/
def utf8DecodeAux : Nat → List Nat → Option (List Char)
  | 0, _ => none
  | _ + 1, [] => some []
  | fuel + 1, b :: rest =>
    if b < 0x80 then
      (utf8DecodeAux fuel rest).map (fun cs => Char.ofNat b :: cs)
    else if b < 0xC2 then
      none
    else if b < 0xE0 then
      match rest with
      | b1 :: rest1 =>
        if isContByte b1 then
          (utf8DecodeAux fuel rest1).map (fun cs =>
            Char.ofNat ((b - 0xC0) * 64 + (b1 - 0x80)) :: cs)
        else none
      | [] => none
    else if b < 0xF0 then
      match rest with
      | b1 :: b2 :: rest2 =>
        if isContByte b1 && isContByte b2
            && (b ≠ 0xE0 || 0xA0 ≤ b1) && (b ≠ 0xED || b1 < 0xA0) then
          (utf8DecodeAux fuel rest2).map (fun cs =>
            Char.ofNat ((b - 0xE0) * 4096 + (b1 - 0x80) * 64 + (b2 - 0x80)) :: cs)
        else none
      | _ => none
    else if b < 0xF5 then
      match rest with
      | b1 :: b2 :: b3 :: rest3 =>
        if isContByte b1 && isContByte b2 && isContByte b3
            && (b ≠ 0xF0 || 0x90 ≤ b1) && (b ≠ 0xF4 || b1 < 0x90) then
          (utf8DecodeAux fuel rest3).map (fun cs =>
            Char.ofNat ((b - 0xF0) * 262144 + (b1 - 0x80) * 4096
              + (b2 - 0x80) * 64 + (b3 - 0x80)) :: cs)
        else none
      | _ => none
    else none

/-- Strict UTF-8 decoding (see `utf8DecodeAux`). -/
def utf8Decode (bytes : List Nat) : Option (List Char) :=
  utf8DecodeAux (bytes.length + 1) bytes

/-- `decodeURIComponent` on the path, returning `none` where the original
throws a `URIError` (invalid escape or invalid UTF-8). -/
def decodeURIComponentOpt (cs : List Char) : Option (List Char) := do
  let bytes ← pctBytes cs
  utf8Decode bytes

/-- `.replace(/\\/g, "/")`. -/
def backslashToSlash (cs : List Char) : List Char :=
  cs.map (fun c => if c = '\\' then '/' else c)

/-- `.replace(/\/+/g, "/")`: collapse each run of slashes to one. -/
def collapseSlashes : List Char → List Char
  | [] => []
  | [c] => [c]
  | c1 :: c2 :: rest =>
    if c1 = '/' ∧ c2 = '/' then collapseSlashes (c2 :: rest)
    else c1 :: collapseSlashes (c2 :: rest)

/-- `.replace(/(.+?)\/+$/, "$1")`: strip trailing slashes, keeping at least
one character (so `/` stays `/`). -/
def trimTrailingSlashes (s : List Char) : List Char :=
  let p := (s.reverse.dropWhile (fun c => c = '/')).reverse
  if p.length = s.length then s
  else if s.length < 2 then s
  else if p = [] then ['/'] else p

/-- `path.split(/[?#]/)[0]`: the path up to the first `?` or `#`. -/
def stripQueryHash (path : String) : List Char :=
  path.toList.takeWhile (fun c => c ≠ '?' ∧ c ≠ '#')

/-- The path normalization at the top of `findMatchingRoute` (middleware.ts,
lines 77-94): strip query/hash, URL-decode (failure → `none`), backslashes to
slashes, collapse slash runs, trim trailing slashes. -/
def normalizePath (path : String) : Option String := do
  let decodedPath ← decodeURIComponentOpt (stripQueryHash path)
  pure (String.mk (trimTrailingSlashes (collapseSlashes (backslashToSlash decodedPath))))

/-- One token of a compiled route regex: a literal character (matched
case-insensitively under the `i` flag), `.*?` (from `*`), or `[^/]+` (from a
`[param]` segment). -/
inductive PatTok
  | lit (c : Char)
  | wildcard
  | segment
  deriving Repr, DecidableEq

/-- Token compilation of a route path, following the replacement chain of
`computeRoutePatterns` (middleware.ts, lines 42-51): `*` → `.*?`, a
non-empty bracketed `[param]` → `[^/]+`, everything else literal (the escape
replacement only affects the regex source text, not which character is
matched). -/
def pathToToksAux : Nat → List Char → List PatTok
  | 0, _ => []
  | _ + 1, [] => []
  | fuel + 1, '*' :: rest => .wildcard :: pathToToksAux fuel rest
  | fuel + 1, '[' :: rest =>
    let inner := rest.takeWhile (fun c => c ≠ ']')
    if inner.length < rest.length ∧ inner ≠ [] then
      .segment :: pathToToksAux fuel (rest.drop (inner.length + 1))
    else
      .lit '[' :: pathToToksAux fuel rest
  | fuel + 1, c :: rest => .lit c :: pathToToksAux fuel rest

/-- Token compilation of a route path (see `pathToToksAux`; each step consumes
at least one character, so `length + 1` fuel always suffices). -/
def pathToToks (cs : List Char) : List PatTok :=
  pathToToksAux (cs.length + 1) cs

/-- Characters escaped by `.replace(/[$()+.?^{|}]/g, "\\$&")`. -/
def regexEscaped (c : Char) : Bool :=
  c = '$' || c = '(' || c = ')' || c = '+' || c = '.' || c = '?'
    || c = '^' || c = '\x7b' || c = '|' || c = '\x7d'

/-- Length of the regex source a token list compiles to, anchors included:
escaped specials and slashes occupy two characters, `.*?` three, `[^/]+`
five. -/
def regexSourceLength (toks : List PatTok) : Nat :=
  2 + (toks.map (fun t =>
    match t with
    | .lit c => if regexEscaped c || c = '/' then 2 else 1
    | .wildcard => 3
    | .segment => 5)).sum

/-- Whether a character is matched by `.` in a JavaScript regex without the
`s` flag (everything except line terminators). -/
def isDotChar (c : Char) : Bool :=
  c ≠ '\n' && c ≠ '\r' && c.toNat ≠ 0x2028 && c.toNat ≠ 0x2029

/-- Anchored match of a compiled route pattern against a normalized path,
case-insensitive as under the `i` flag.  Wildcards and `[^/]+` segments use
existential-split semantics, equivalent to the regex engine's backtracking for
a boolean full match. -/
def patMatchAux : Nat → List PatTok → List Char → Bool
  | 0, _, _ => false
  | _ + 1, [], xs => xs.isEmpty
  | fuel + 1, .lit c :: ts, xs =>
    match xs with
    | [] => false
    | x :: xs1 => c.toLower == x.toLower && patMatchAux fuel ts xs1
  | fuel + 1, .wildcard :: ts, xs =>
    patMatchAux fuel ts xs
      || (match xs with
          | [] => false
          | x :: xs1 => isDotChar x && patMatchAux fuel (.wildcard :: ts) xs1)
  | fuel + 1, .segment :: ts, xs =>
    match xs with
    | [] => false
    | x :: xs1 =>
      x != '/' && (patMatchAux fuel ts xs1 || patMatchAux fuel (.segment :: ts) xs1)

/-- Anchored pattern match (see `patMatchAux`; every step shrinks
`toks.length + xs.length`, so that sum plus one is always enough fuel). -/
def patMatch (toks : List PatTok) (xs : List Char) : Bool :=
  patMatchAux (toks.length + xs.length + 1) toks xs

/-- `RouteConfig` reduced to the price field (the other members do not affect
matching). -/
structure RouteConfig where
  price : String
  deriving Repr, DecidableEq, Inhabited

/-- A compiled route pattern: upper-cased verb, the compiled path tokens, the
length of the regex source (the specificity measure of `findMatchingRoute`)
and the route's configuration. -/
structure RoutePattern where
  verb : String
  toks : List PatTok
  srcLength : Nat
  config : RouteConfig
  deriving Repr, DecidableEq

/-- `String.prototype.toUpperCase()` restricted to its ASCII action. -/
def strToUpper (s : String) : String :=
  String.mk (s.toList.map Char.toUpper)

/-- Whether a character is matched by `\s` (the whitespace class used by the
verb/path `split(/\s+/)`); the less common Unicode members are omitted. -/
def isWsChar (c : Char) : Bool :=
  c = ' ' || c = '\t' || c = '\n' || c = '\r' || c = '\x0b' || c = '\x0c'

/-- `String.prototype.split(/\s+/)`: fields separated by whitespace runs; a
leading or trailing run contributes an empty field. -/
def splitWsRunsAux : Nat → List Char → List Char → List (List Char)
  | 0, _, acc => [acc.reverse]
  | _ + 1, [], acc => [acc.reverse]
  | fuel + 1, c :: rest, acc =>
    if isWsChar c then acc.reverse :: splitWsRunsAux fuel (rest.dropWhile isWsChar) []
    else splitWsRunsAux fuel rest (c :: acc)

/-- `String.prototype.split(/\s+/)` (see `splitWsRunsAux`; each step consumes
at least one character, so `length + 1` fuel always suffices). -/
def splitWsRuns (cs : List Char) : List (List Char) :=
  splitWsRunsAux (cs.length + 1) cs []

/-- `computeRoutePatterns` (middleware.ts, lines 24-57): split each key into
verb and path (defaulting the verb to `*`), reject a missing/empty path,
upper-case the verb and compile the path to a pattern. -/
def computeRoutePatterns (routes : List (String × RouteConfig)) :
    Except String (List RoutePattern) :=
  routes.mapM (fun pr =>
    let pattern := pr.1
    let vp : String × Option String :=
      if pattern.toList.any isWsChar then
        match splitWsRuns pattern.toList with
        | v :: p :: _ => (String.mk v, some (String.mk p))
        | [v] => (String.mk v, none)
        | [] => ("", none)
      else ("*", some pattern)
    match vp.2 with
    | none => .error ("Invalid route pattern: " ++ pattern)
    | some p =>
      if p = "" then .error ("Invalid route pattern: " ++ pattern)
      else
        .ok { verb := strToUpper vp.1,
              toks := pathToToks p.toList,
              srcLength := regexSourceLength (pathToToks p.toList),
              config := pr.2 })

/-- `findMatchingRoute` (middleware.ts, lines 67-116): normalize the path
(decoding failure → `undefined`), filter by pattern and verb, and keep the
route with the longest regex source. -/
def findMatchingRoute (routePatterns : List RoutePattern) (path method : String) :
    Option RoutePattern :=
  match normalizePath path with
  | none => none
  | some normalizedPath =>
    let matchingRoutes := routePatterns.filter (fun rp =>
      patMatch rp.toks normalizedPath.toList
        && (rp.verb == "*" || strToUpper method == rp.verb))
    match matchingRoutes with
    | [] => none
    | r :: rs => some (rs.foldl (fun a b => if b.srcLength > a.srcLength then b else a) r)

/-! ## The Express payment middleware (`lib/x402-express/index.ts`)

The response object is modelled explicitly: `res.end` starts out as the
original writer; after verification the middleware swaps in an interceptor
that only buffers its arguments (`endArgs`), and the original writer appends
to `sent`, the sequence of writes that actually reach the client.  The
`X-PAYMENT-RESPONSE` header stores the `SettleResponse` itself, standing for
its base64(JSON) encoding (`settleResponseHeader`). -/

/-- A chunk passed to `res.end` / produced by `res.json`. -/
inductive RespBody
  | handlerBody (chunk : String)
  | paywallHtml
  | json402 (error : String) (accepts : List PaymentRequirements)
  deriving Repr, DecidableEq

/-- The state of the Express response object, reduced to what the middleware
manipulates. -/
structure ResState where
  statusCode : Nat
  xPaymentResponse : Option SettleResponse
  intercepted : Bool
  endArgs : Option (Option RespBody)
  sent : List (Option RespBody)
  deriving Repr, DecidableEq

/-- A fresh response (Express defaults the status code to 200). -/
def initialRes : ResState :=
  { statusCode := 200, xPaymentResponse := none, intercepted := false,
    endArgs := none, sent := [] }

/-- A call to `res.end(...)`: the interceptor (index.ts, lines 314-317) only
records the arguments; the original writer sends them. -/
def resEnd (s : ResState) (chunk : Option RespBody) : ResState :=
  if s.intercepted then { s with endArgs := some chunk }
  else { s with sent := s.sent ++ [chunk] }

/-- `res.status(code)`. -/
def resStatus (s : ResState) (code : Nat) : ResState :=
  { s with statusCode := code }

/-- `res.json(body)` / `res.send(body)`: serializes and finishes through the
currently-installed `res.end`. -/
def resJson (s : ResState) (body : RespBody) : ResState :=
  resEnd s (some body)

/-- `res.setHeader("X-PAYMENT-RESPONSE", settleResponseHeader(r))`. -/
def setPaymentResponseHeader (s : ResState) (r : SettleResponse) : ResState :=
  { s with xPaymentResponse := some r }

/-- `res.end = originalEnd; if (endArgs) originalEnd(...endArgs)` — the
restore-and-replay step run both on the ≥ 400 early return (index.ts, lines
324-328) and in the `finally` block (lines 357-360). -/
def flushBuffered (s : ResState) : ResState :=
  match s.endArgs with
  | some chunk => { s with intercepted := false, sent := s.sent ++ [chunk] }
  | none => { s with intercepted := false }

/-- Result of the post-handler phase: the final response state and whether
`settle` was invoked. -/
structure MwPhaseResult where
  res : ResState
  settleCalled : Bool
  deriving Repr, DecidableEq

/-- The post-handler portion of the middleware (index.ts, lines 322-361),
starting from the state `s` left by the downstream handler (interception
active, `s.endArgs` holding the buffered `end` call, `s.statusCode` the
handler's status):

* status ≥ 400 → restore and replay without calling `settle`;
* otherwise call `settle`; when it returns, set `X-PAYMENT-RESPONSE` (before
  the success check), and on `success=false` emit the 402 JSON — through the
  still-intercepted `res.end`, so the `finally` replay sends it;
* when `settle` throws and headers are not yet sent, emit the 402 JSON
  similarly; in every post-settle path the `finally` block restores and
  replays the buffer. -/
def settleAfterHandler (settleOutcome : Except String SettleResponse)
    (headersSentAtCatch : Bool) (accepts : List PaymentRequirements)
    (s : ResState) : MwPhaseResult :=
  if s.statusCode ≥ 400 then
    { res := flushBuffered s, settleCalled := false }
  else
    match settleOutcome with
    | .ok settleResponse =>
      let s1 := setPaymentResponseHeader s settleResponse
      if settleResponse.success = false then
        let s2 := resJson (resStatus s1 402)
          (.json402 (settleResponse.errorReason.getD "") accepts)
        { res := flushBuffered s2, settleCalled := true }
      else
        { res := flushBuffered s1, settleCalled := true }
    | .error e =>
      if headersSentAtCatch = false then
        let s2 := resJson (resStatus s 402) (.json402 e accepts)
        { res := flushBuffered s2, settleCalled := true }
      else
        { res := flushBuffered s, settleCalled := true }

/-- `findMatchingPaymentRequirements` (middleware.ts, lines 187-194). -/
def findMatchingPaymentRequirements (paymentRequirements : List PaymentRequirements)
    (payment : PaymentPayload) : Option PaymentRequirements :=
  paymentRequirements.find? (fun v =>
    v.scheme == payment.scheme && v.network == payment.network)

/-- The environment of one middleware invocation: the request, the outcomes of
the effectful steps and the effect of the downstream handler. -/
structure MwEnv where
  routePatterns : List RoutePattern
  reqPath : String
  reqMethod : String
  paymentHeader : Option String
  isWebBrowser : Bool
  /-- Building the requirements list (price conversion and the facilitator
  `supported()` fee-payer lookup, index.ts lines 122-209): a thrown error
  propagates out of the middleware. -/
  buildAccepts : Except String (List PaymentRequirements)
  /-- `exact.evm.decodePayment(payment)` outcome. -/
  decodePayment : Except String PaymentPayload
  /-- The facilitator `verify` HTTP call: `.error` models a rejected promise. -/
  verifyOutcome : Except String VerifyResponse
  settleOutcome : Except String SettleResponse
  handlerStatus : Nat
  handlerEnd : Option (Option RespBody)
  headersSentAtCatch : Bool

/-- The observable outcome of one middleware invocation. -/
structure MwOutcome where
  calledNext : Bool
  verifyCalled : Bool
  settleCalled : Bool
  res : ResState
  deriving Repr, DecidableEq

/-- The Express `paymentMiddleware` handler (index.ts, lines 99-362): route
lookup (no match → `next()`), requirements construction, the 402 challenge
when `X-PAYMENT` is absent, payload decoding and matching, verification, then
handler interception and the settle phase.  The outer `Except` carries the
errors the middleware itself throws (requirements construction). -/
def paymentMiddleware (env : MwEnv) : Except String MwOutcome := do
  match findMatchingRoute env.routePatterns env.reqPath env.reqMethod with
  | none =>
    return { calledNext := true, verifyCalled := false, settleCalled := false,
             res := initialRes }
  | some _matchingRoute =>
    let accepts ← env.buildAccepts
    match env.paymentHeader with
    | none =>
      if env.isWebBrowser then
        return { calledNext := false, verifyCalled := false, settleCalled := false,
                 res := resEnd (resStatus initialRes 402) (some .paywallHtml) }
      else
        return { calledNext := false, verifyCalled := false, settleCalled := false,
                 res := resJson (resStatus initialRes 402)
                   (.json402 "X-PAYMENT header is required" accepts) }
    | some _payment =>
      match env.decodePayment with
      | .error e =>
        return { calledNext := false, verifyCalled := false, settleCalled := false,
                 res := resJson (resStatus initialRes 402) (.json402 e accepts) }
      | .ok decodedPayment =>
        match findMatchingPaymentRequirements accepts decodedPayment with
        | none =>
          return { calledNext := false, verifyCalled := false, settleCalled := false,
                   res := resJson (resStatus initialRes 402)
                     (.json402 "Unable to find matching payment requirements" accepts) }
        | some _selected =>
          match env.verifyOutcome with
          | .error e =>
            return { calledNext := false, verifyCalled := true, settleCalled := false,
                     res := resJson (resStatus initialRes 402) (.json402 e accepts) }
          | .ok response =>
            if response.isValid = false then
              return { calledNext := false, verifyCalled := true, settleCalled := false,
                       res := resJson (resStatus initialRes 402)
                         (.json402 (response.invalidReason.getD "") accepts) }
            else
              let afterHandler : ResState :=
                { statusCode := env.handlerStatus, xPaymentResponse := none,
                  intercepted := true, endArgs := env.handlerEnd, sent := [] }
              let ph := settleAfterHandler env.settleOutcome env.headersSentAtCatch
                accepts afterHandler
              return { calledNext := true, verifyCalled := true,
                       settleCalled := ph.settleCalled, res := ph.res }

/-! ## Price → atomic amount (`processPriceToAtomicAmount`, middleware.ts
lines 147-178)

The source computes `parsedUsdAmount * 10 ** asset.decimals` with IEEE-754
binary64 doubles and stringifies the product with
`Number.prototype.toString()`.  The model below implements that arithmetic
exactly: a decimal numeral is parsed to the nearest double (ties to even, as
`Number(...)` does), the multiplication rounds the exact product back to 53
bits, and the stringification performs the ECMA-262 shortest-round-trip digit
search.  All values reached here are normal finite doubles (no overflow,
underflow, subnormals or NaN), so those float cases are out of range rather
than modelled. -/

/-- A non-negative exact decimal `mant / 10^scale` — the digits of a decimal
numeral before `Number` parsing turns it into a double. -/
structure Dec where
  mant : Nat
  scale : Nat
  deriving Repr, DecidableEq

/-- A non-negative finite binary64 value `m · 2^e`.  Every value produced by
the functions below is normalized: `m = 0`, or `2^52 ≤ m < 2^53`, which makes
the representation (and record equality) unique. -/
structure F64 where
  m : Nat
  e : Int
  deriving Repr, DecidableEq, BEq

/-- Bit length of a natural number (fuel-based so that it kernel-reduces;
256 bits cover every quantity in this development). -/
def bitlenAux : Nat → Nat → Nat
  | 0, _ => 0
  | fuel + 1, n => if n = 0 then 0 else bitlenAux fuel (n / 2) + 1

/-- Bit length (see `bitlenAux`). -/
def bitlen (n : Nat) : Nat := bitlenAux 256 n

/-- Nearest integer to `num / den` with ties to even (`den > 0`). -/
def natRoundEven (num den : Nat) : Nat :=
  let q := num / den
  let r := num % den
  if 2 * r < den then q
  else if den < 2 * r then q + 1
  else if q % 2 = 0 then q else q + 1

/-- Round `num/den` to an integer multiple of `2^e` (returning the
multiplier), nearest, ties to even. -/
def roundAtExp (num den : Nat) (e : Int) : Nat :=
  if 0 ≤ e then natRoundEven num (den * 2 ^ e.toNat)
  else natRoundEven (num * 2 ^ (-e).toNat) den

/-- Round-to-nearest (ties to even) of the positive rational `num/den` to a
binary64 value.  The exponent guess from the bit lengths is at most one below
the true one, and a mantissa that rounds up to `2^53` moves the exponent up
once more, so two corrections suffice. -/
def f64OfRat (num den : Nat) : F64 :=
  if num = 0 then { m := 0, e := 0 }
  else
    let e0 : Int := (bitlen num : Int) - (bitlen den : Int) - 53
    let m0 := roundAtExp num den e0
    if m0 < 2 ^ 53 then { m := m0, e := e0 }
    else
      let m1 := roundAtExp num den (e0 + 1)
      if m1 < 2 ^ 53 then { m := m1, e := e0 + 1 }
      else { m := roundAtExp num den (e0 + 2), e := e0 + 2 }

/-- Binary64 multiplication: round the exact double-width product back to 53
bits (no overflow or underflow occurs in the magnitudes used here). -/
def f64Mul (x y : F64) : F64 :=
  let r := f64OfRat (x.m * y.m) 1
  { m := r.m, e := r.e + x.e + y.e }

/-- The binary64 nearest to the exact decimal `d` — what `Number(...)` (and
hence `moneySchema`'s coercion) produces for a decimal numeral. -/
def f64OfDec (d : Dec) : F64 := f64OfRat d.mant (10 ^ d.scale)

/-- A non-negative `F64` as an exact rational `(numerator, denominator)`. -/
def f64ToRat (x : F64) : Nat × Nat :=
  if 0 ≤ x.e then (x.m * 2 ^ x.e.toNat, 1) else (x.m, 2 ^ (-x.e).toNat)

/-- `10^j` as a rational `(numerator, denominator)` pair. -/
def pow10Rat (j : Int) : Nat × Nat :=
  if 0 ≤ j then (10 ^ j.toNat, 1) else (1, 10 ^ (-j).toNat)

/-- `a/b < c/d` on non-negative rationals (`b, d > 0`). -/
def ratLt (a b c d : Nat) : Bool := decide (a * d < c * b)

/-- The decimal exponent of `x > 0`: the unique `n` with
`10^(n-1) ≤ x < 10^n`, found by an ascending scan whose window covers every
magnitude reachable in this development. -/
def decExp10Aux : Nat → Int → Nat × Nat → Int
  | 0, n, _ => n
  | fuel + 1, n, v =>
    if ratLt v.1 v.2 (pow10Rat n).1 (pow10Rat n).2 then n
    else decExp10Aux fuel (n + 1) v

/-- Decimal exponent (see `decExp10Aux`). -/
def decExp10 (x : F64) : Int := decExp10Aux 64 (-30) (f64ToRat x)

/-- `s · 10^j` as a rational `(numerator, denominator)` pair. -/
def sTimesPow10 (s : Nat) (j : Int) : Nat × Nat :=
  if 0 ≤ j then (s * 10 ^ j.toNat, 1) else (s, 10 ^ (-j).toNat)

/-- Whether the decimal `s · 10^j` reads back (round-to-nearest, as `Number`
parsing does) as exactly the double `x`. -/
def readsBackTo (s : Nat) (j : Int) (x : F64) : Bool :=
  let r := sTimesPow10 s j
  f64OfRat r.1 r.2 == x

/-- `|a/b - c/d|` compared through the common denominator `b·d`: the
comparison key is the numerator `|a·d - c·b|`. -/
def distNum (a b c d : Nat) : Nat :=
  if a * d ≤ c * b then c * b - a * d else a * d - c * b

/-- The ECMA-262 `Number::toString` digit search at a fixed digit count `k`:
among the `k`-digit integers `s` near `x / 10^(n-k)` whose numeral reads back
as exactly `x`, the one closest to `x`, ties broken towards an even `s`
(§6.1.6.1.20 steps 5-6); `none` when no `k`-digit numeral reads back. -/
def bestDigits (x : F64) (n : Int) (k : Nat) : Option Nat :=
  let v := f64ToRat x
  let j : Int := n - k
  let p := pow10Rat j
  let s0 := natRoundEven (v.1 * p.2) (v.2 * p.1)
  let candidates := [s0 - 2, s0 - 1, s0, s0 + 1, s0 + 2].filter (fun s =>
    decide (10 ^ (k - 1) ≤ s) && decide (s < 10 ^ k) && readsBackTo s j x)
  match candidates with
  | [] => none
  | c :: cs =>
    some (cs.foldl (fun a b =>
      let ra := sTimesPow10 a j
      let rb := sTimesPow10 b j
      let da := distNum ra.1 ra.2 v.1 v.2
      let db := distNum rb.1 rb.2 v.1 v.2
      if db < da then b else if da < db then a
      else if a % 2 = 0 then a else b) c)

/-- Minimal-digit search: the smallest `k ≥ 1` admitting digits that read
back as `x`, with those digits (17 digits always suffice for a double, so the
fuel never runs out). -/
def jsDigitsAux : Nat → Nat → F64 → Int → Nat × Nat
  | 0, k, _, _ => (k, 0)
  | fuel + 1, k, x, n =>
    match bestDigits x n k with
    | some s => (k, s)
    | none => jsDigitsAux fuel (k + 1) x n

/-- Minimal-digit search (see `jsDigitsAux`). -/
def jsDigits (x : F64) (n : Int) : Nat × Nat := jsDigitsAux 20 1 x n

/-- The ECMA-262 `Number::toString(10)` formatting of `k` digits `s` with
decimal exponent `n` (§6.1.6.1.20 steps 7-10). -/
def formatDigits (s : Nat) (k : Nat) (n : Int) : String :=
  let ds := toString s
  if (k : Int) ≤ n ∧ n ≤ 21 then
    ds ++ String.mk (List.replicate (n - k).toNat '0')
  else if 0 < n ∧ n ≤ 21 then
    String.mk (ds.toList.take n.toNat) ++ "." ++ String.mk (ds.toList.drop n.toNat)
  else if -6 < n ∧ n ≤ 0 then
    "0." ++ String.mk (List.replicate (-n).toNat '0') ++ ds
  else
    let head := String.mk (ds.toList.take 1)
    let tail := ds.toList.drop 1
    let mant := if tail = [] then head else head ++ "." ++ String.mk tail
    let expv := n - 1
    mant ++ "e" ++ (if 0 ≤ expv then "+" ++ toString expv.toNat
                    else "-" ++ toString (-expv).toNat)

/-- `Number.prototype.toString()` of a non-negative finite double: shortest
round-tripping digits, formatted per ECMA-262. -/
def jsNumToString (x : F64) : String :=
  if x.m = 0 then "0"
  else
    let n := decExp10 x
    let ks := jsDigits x n
    formatDigits ks.2 ks.1 n

/-- `Price`: a USD money value (string or number form, already through
`moneySchema`'s coercion) or an explicit token amount. -/
inductive Price
  | money (d : Dec)
  | tokenAmount (amount : String) (assetAddress : String) (assetDecimals : Nat)
  deriving Repr, DecidableEq

/-- Modelled from the spec: `moneySchema` (`lib/x402/types/shared/money.ts` is
not among the sources).  Per the spec the money parser rejects values below
0.0001 (and non-numeric input, which cannot reach this representation). -/
def moneyParse (d : Dec) : Option Dec :=
  if d.mant * 10000 ≥ 10 ^ d.scale then some d else none

/-- The result record of `processPriceToAtomicAmount`. -/
structure AtomicAmount where
  maxAmountRequired : String
  assetAddress : String
  assetDecimals : Nat
  deriving Repr, DecidableEq

/-- `getDefaultAsset` (middleware.ts, lines 124-138): the USDC mint configured
for the network's chain id, with 6 decimals; `none` (no configured USDC for
the chain) makes it throw.  The compiled-in chain-id → USDC table
(`types/shared/evm/config.ts`) is not among the sources, so the mint address
is taken as a parameter. -/
def getDefaultAsset (networkUsdc : Option String) : Except String (String × Nat) :=
  match networkUsdc with
  | some addr => .ok (addr, 6)
  | none => .error "Unable to get default asset"

/-- `processPriceToAtomicAmount` (middleware.ts, lines 147-178): for money,
`maxAmountRequired = (parsedUsdAmount * 10 ** asset.decimals).toString()` — a
binary64 multiplication and stringification, with no rounding to an integer;
for a token amount the string is passed through.  (`10 ** decimals` is itself
the exact double `10^decimals` for every decimals ≤ 15, in particular for the
6-decimal assets used here.) -/
def processPriceToAtomicAmount (price : Price) (networkUsdc : Option String) :
    Except String AtomicAmount :=
  match price with
  | .money d =>
    match moneyParse d with
    | none => .error "Invalid price"
    | some parsedUsdAmount =>
      match getDefaultAsset networkUsdc with
      | .error e => .error e
      | .ok asset =>
        .ok { maxAmountRequired :=
                jsNumToString (f64Mul (f64OfDec parsedUsdAmount)
                  (f64OfRat (10 ^ asset.2) 1)),
              assetAddress := asset.1, assetDecimals := asset.2 }
  | .tokenAmount amount addr dec =>
    .ok { maxAmountRequired := amount, assetAddress := addr, assetDecimals := dec }

/-- The conversion as the spec words it: `round(dollars * 10^decimals)` with
round-half-away-from-zero (for non-negative values, `floor(x + 1/2)`). -/
def specAtomicAmount (d : Dec) (decimals : Nat) : Nat :=
  if d.scale ≤ decimals then d.mant * 10 ^ (decimals - d.scale)
  else (2 * d.mant * 10 ^ decimals + 10 ^ d.scale) / (2 * 10 ^ d.scale)

/-! ## Concrete fixtures used by witnesses and counterexamples -/

/-- A well-formed `SetComputeUnitLimit` instruction (discriminator 2, u32). -/
def okLimitIns : SvmInstruction :=
  { programAddress := COMPUTE_BUDGET_PROGRAM_ADDRESS, accounts := [],
    data := [2, 64, 66, 15, 0] }

/-- A well-formed `SetComputeUnitPrice` instruction with
`microLamports = 1`. -/
def okPriceIns : SvmInstruction :=
  { programAddress := COMPUTE_BUDGET_PROGRAM_ADDRESS, accounts := [],
    data := [3, 1, 0, 0, 0, 0, 0, 0, 0] }

/-- A `SetComputeUnitPrice` instruction with `microLamports = 6000000`,
above the 5 000 000 cap. -/
def highPriceIns : SvmInstruction :=
  { programAddress := COMPUTE_BUDGET_PROGRAM_ADDRESS, accounts := [],
    data := [3, 128, 141, 91, 0, 0, 0, 0, 0] }

/-- A compute-budget instruction with discriminator 3 but truncated data:
the guard of `verifyComputePriceInstruction` passes and the unguarded codec
parse throws. -/
def truncatedPriceIns : SvmInstruction :=
  { programAddress := COMPUTE_BUDGET_PROGRAM_ADDRESS, accounts := [], data := [3] }

/-- A well-formed create-associated-token-account instruction paying to
`PAYTO` for mint `ASSET`. -/
def okAtaIns : SvmInstruction :=
  { programAddress := "ATokenGPvbdGVxr1b2hvZbsiqW5xWH25efTNsLJA8knL",
    accounts := ["FEEPAYER", "DESTATA", "PAYTO", "ASSET", "SystemProg", "TokenProg"],
    data := [0] }

/-- A well-formed SPL-token `TransferChecked` of 1800 atomic units from
`SRCATA` to `DESTATA` authorized by `CLIENT`. -/
def okTransferIns : SvmInstruction :=
  { programAddress := TOKEN_PROGRAM_ADDRESS,
    accounts := ["SRCATA", "ASSET", "DESTATA", "CLIENT"],
    data := [12, 8, 7, 0, 0, 0, 0, 0, 0, 6] }

/-- The ATA derivation of the fixtures: every lookup yields `DESTATA`. -/
def fixtureDerive (_mint _owner _tokenProgram : String) : String := "DESTATA"

/-- On-chain account existence of the fixtures: exactly `SRCATA` and
`DESTATA` exist. -/
def fixtureAcct (a : String) : Bool := a == "SRCATA" || a == "DESTATA"

/-- Introspection environment for the fixtures: the receiver ATA derives to
`DESTATA` and both `SRCATA` and `DESTATA` exist on chain. -/
def fixtureIntroEnv : IntroEnv :=
  { ataDerive := fixtureDerive, fetchAccounts := .ok fixtureAcct }

/-- Payment requirements for the fixtures: 1800 atomic units of `ASSET` to
`PAYTO` on devnet. -/
def fixtureReq : PaymentRequirements :=
  { scheme := "exact", network := "solana-devnet", maxAmountRequired := "1800",
    payTo := "PAYTO", asset := "ASSET", feePayer := some "FEEPAYER" }

/-- A matching payload for the fixtures. -/
def fixturePayload : PaymentPayload :=
  { x402Version := 1, scheme := "exact", network := "solana-devnet" }

/-- A fixture transaction with the 3-instruction shape. -/
def fixtureTx : DecodedTx :=
  { instructions := [okLimitIns, okPriceIns, okTransferIns] }

/-- A verify environment in which everything succeeds. -/
def okVerifyEnv : VerifyEnv :=
  { decodedTx := some fixtureTx, intro := fixtureIntroEnv, simulate := .ok false }

/-- The single-route map of the path-normalization scenario. -/
def apiTestRoutes : List (String × RouteConfig) :=
  [("GET /api/test", { price := "$0.01" })]

/-- The pattern `computeRoutePatterns` compiles `"GET /api/test"` to. -/
def apiTestPattern : RoutePattern :=
  { verb := "GET", toks := pathToToks "/api/test".toList,
    srcLength := regexSourceLength (pathToToks "/api/test".toList),
    config := { price := "$0.01" } }

/-- The requirements list the middleware builds in the fixtures. -/
def fixtureAccepts : List PaymentRequirements := [fixtureReq]

/-- The parsed form of `okTransferIns`. -/
def fixtureParsedTransfer : ParsedTransferChecked :=
  { programAddress := TOKEN_PROGRAM_ADDRESS, source := "SRCATA", mint := "ASSET",
    destination := "DESTATA", authority := "CLIENT", amount := 1800, decimals := 6 }

/-- A settle response that reports failure after submission. -/
def failedSettleResponse : SettleResponse :=
  { success := false, errorReason := some "invalid_transaction_state",
    payer := some "CLIENT", transaction := "SIG", network := "solana-devnet" }

/-- A successful settle response. -/
def okSettleResponse : SettleResponse :=
  { success := true, errorReason := none, payer := some "CLIENT",
    transaction := "SIG", network := "solana-devnet" }

/-- A middleware environment where the route matches, a valid payment is
presented, the handler succeeds with a buffered body and `settle` reports
`success = false`. -/
def settleFailMwEnv : MwEnv :=
  { routePatterns := [apiTestPattern], reqPath := "/api/test", reqMethod := "GET",
    paymentHeader := some "payment-b64", isWebBrowser := false,
    buildAccepts := .ok fixtureAccepts,
    decodePayment := .ok fixturePayload,
    verifyOutcome := .ok { isValid := true, invalidReason := none, payer := some "CLIENT" },
    settleOutcome := .ok failedSettleResponse,
    handlerStatus := 200,
    handlerEnd := some (some (.handlerBody "protected")),
    headersSentAtCatch := false }

/-- Like `settleFailMwEnv` but the downstream handler answers 503. -/
def handlerErrMwEnv : MwEnv :=
  { settleFailMwEnv with settleOutcome := .ok okSettleResponse, handlerStatus := 503 }

/-- Like `settleFailMwEnv` but the request path carries an invalid
percent-escape. -/
def badEscapeMwEnv : MwEnv :=
  { settleFailMwEnv with reqPath := "/api/%XX" }

/-- A transaction whose second instruction has the compute-price discriminator
but truncated data. -/
def truncatedPriceTx : DecodedTx :=
  { instructions := [okLimitIns, truncatedPriceIns, okTransferIns] }

/-- A verify environment around `truncatedPriceTx`. -/
def truncatedPriceVerifyEnv : VerifyEnv :=
  { decodedTx := some truncatedPriceTx, intro := fixtureIntroEnv, simulate := .ok false }

/-- The 4-instruction (create-ATA) fixture shape. -/
def fixtureTx4 : List SvmInstruction := [okLimitIns, okPriceIns, okAtaIns, okTransferIns]

/-- A settle environment in which every step succeeds. -/
def okSettleEnv : SettleEnv :=
  { verifyEnv := okVerifyEnv, signTx := .ok (), sendTx := .ok (),
    confirm := .confirmed, signature := "SIG" }

/-- `okSettleEnv` with the confirmation aborted by the 60-second timer. -/
def abortSettleEnv : SettleEnv :=
  { okSettleEnv with confirm := .aborted }

/-! ## Theorems -/

/-- **C9.**  With a route registered at `"GET /api/test"`, the paths
`/api/test`, `/api//test`, `/API/test/`, `/api/%74est` and `/api\test` all
normalize so that `findMatchingRoute` returns that same registered route. -/
theorem route_normalization_all_match :
    computeRoutePatterns apiTestRoutes = .ok [apiTestPattern]
    ∧ findMatchingRoute [apiTestPattern] "/api/test" "GET" = some apiTestPattern
    ∧ findMatchingRoute [apiTestPattern] "/api//test" "GET" = some apiTestPattern
    ∧ findMatchingRoute [apiTestPattern] "/API/test/" "GET" = some apiTestPattern
    ∧ findMatchingRoute [apiTestPattern] "/api/%74est" "GET" = some apiTestPattern
    ∧ findMatchingRoute [apiTestPattern] "/api\\test" "GET" = some apiTestPattern := by
  refine ⟨?_, ?_, ?_, ?_, ?_, ?_⟩ <;> decide

/-- **C10.**  A request path containing a percent-encoding that URL-decoding
rejects makes `findMatchingRoute` return `undefined` for any route table, so
the payment middleware forwards the request to the next handler without a 402
challenge, verification or settlement. -/
theorem malformed_encoding_no_payment (env : MwEnv)
    (h : decodeURIComponentOpt (stripQueryHash env.reqPath) = none) :
    findMatchingRoute env.routePatterns env.reqPath env.reqMethod = none
    ∧ paymentMiddleware env
        = .ok { calledNext := true, verifyCalled := false, settleCalled := false,
                res := initialRes } := by
  have hnorm : normalizePath env.reqPath = none := by
    simp [normalizePath, h]
  have hroute : findMatchingRoute env.routePatterns env.reqPath env.reqMethod = none := by
    simp [findMatchingRoute, hnorm]
  exact ⟨hroute, by simp [paymentMiddleware, hroute, pure, Except.pure]⟩

/-- Witness for **C10** at the concrete path `/api/%XX`, on an environment
whose route table would otherwise cover the path. -/
theorem malformed_encoding_no_payment_witness :
    decodeURIComponentOpt (stripQueryHash badEscapeMwEnv.reqPath) = none
    ∧ (findMatchingRoute badEscapeMwEnv.routePatterns badEscapeMwEnv.reqPath
          badEscapeMwEnv.reqMethod = none
       ∧ paymentMiddleware badEscapeMwEnv
           = .ok { calledNext := true, verifyCalled := false, settleCalled := false,
                   res := initialRes }) :=
  ⟨by decide, malformed_encoding_no_payment badEscapeMwEnv (by decide)⟩

set_option maxRecDepth 8000 in
/-- **C7** (counterexample).  The conversion is an IEEE-double multiplication
with no rounding to an integer: the accepted money price `$1.005` produces
`"1004999.9999999999"` (the binary64 product of the double nearest 1.005 with
10^6), not `round(1.005 · 10^6) = 1005000` as the claim states. -/
theorem price_rounding_cx :
    processPriceToAtomicAmount (.money ⟨1005, 3⟩) (some "USDC")
      = .ok { maxAmountRequired := "1004999.9999999999", assetAddress := "USDC",
              assetDecimals := 6 }
    ∧ toString (specAtomicAmount ⟨1005, 3⟩ 6) = "1005000"
    ∧ ("1004999.9999999999" : String) ≠ "1005000" := by
  refine ⟨?_, ?_, ?_⟩ <;> decide

set_option maxRecDepth 8000 in
/-- **C7** (amended).  The conversion computes the binary64 product
`parsedUsdAmount * 10^decimals` and stringifies it with `toString()` — no
rounding step of any kind: `$0.0018` with the 6-decimal default asset yields
`"1800"` (that double product happens to be exactly 1800), while `$0.0001001`
yields the fractional string `"100.1"`; per the counterexample, `$1.005`
yields `"1004999.9999999999"` although its exact product is integral. -/
theorem price_conversion_no_rounding (d : Dec) (usdc : String)
    (hmoney : moneyParse d = some d) :
    processPriceToAtomicAmount (.money d) (some usdc)
      = .ok { maxAmountRequired :=
                jsNumToString (f64Mul (f64OfDec d) (f64OfRat (10 ^ 6) 1)),
              assetAddress := usdc, assetDecimals := 6 }
    ∧ processPriceToAtomicAmount (.money ⟨18, 4⟩) (some "USDC")
        = .ok { maxAmountRequired := "1800", assetAddress := "USDC",
                assetDecimals := 6 }
    ∧ processPriceToAtomicAmount (.money ⟨1001, 7⟩) (some "USDC")
        = .ok { maxAmountRequired := "100.1", assetAddress := "USDC",
                assetDecimals := 6 } := by
  refine ⟨?_, ?_, ?_⟩
  · simp [processPriceToAtomicAmount, hmoney, getDefaultAsset]
  · decide
  · decide

set_option maxRecDepth 8000 in
/-- Witness for **C7** at the concrete price `$0.0018` (`18 / 10^4`). -/
theorem price_conversion_no_rounding_witness :
    moneyParse ⟨18, 4⟩ = some ⟨18, 4⟩
    ∧ (processPriceToAtomicAmount (.money ⟨18, 4⟩) (some "USDC")
        = .ok { maxAmountRequired :=
                  jsNumToString (f64Mul (f64OfDec ⟨18, 4⟩) (f64OfRat (10 ^ 6) 1)),
                assetAddress := "USDC", assetDecimals := 6 }
      ∧ processPriceToAtomicAmount (.money ⟨18, 4⟩) (some "USDC")
          = .ok { maxAmountRequired := "1800", assetAddress := "USDC",
                  assetDecimals := 6 }
      ∧ processPriceToAtomicAmount (.money ⟨1001, 7⟩) (some "USDC")
          = .ok { maxAmountRequired := "100.1", assetAddress := "USDC",
                  assetDecimals := 6 }) :=
  ⟨by decide, price_conversion_no_rounding ⟨18, 4⟩ "USDC" (by decide)⟩

/-- **C1.**  For every protected request whose downstream handler finishes
with status ≥ 400, the middleware never invokes `settle` and replays the
buffered `end(...)` call unchanged (the handler status and body reach the
client verbatim, with no `X-PAYMENT-RESPONSE` header). -/
theorem handler_error_skips_settle (env : MwEnv) (route : RoutePattern)
    (payment : String) (decodedPayment : PaymentPayload)
    (selected : PaymentRequirements) (response : VerifyResponse)
    (accepts : List PaymentRequirements)
    (hroute : findMatchingRoute env.routePatterns env.reqPath env.reqMethod = some route)
    (hacc : env.buildAccepts = .ok accepts)
    (hpay : env.paymentHeader = some payment)
    (hdec : env.decodePayment = .ok decodedPayment)
    (hsel : findMatchingPaymentRequirements accepts decodedPayment = some selected)
    (hver : env.verifyOutcome = .ok response)
    (hvalid : response.isValid = true)
    (hstatus : 400 ≤ env.handlerStatus) :
    paymentMiddleware env = .ok
      { calledNext := true, verifyCalled := true, settleCalled := false,
        res := { statusCode := env.handlerStatus, xPaymentResponse := none,
                 intercepted := false, endArgs := env.handlerEnd,
                 sent := match env.handlerEnd with
                         | some chunk => [chunk]
                         | none => [] } } := by
  have hnotfalse : ¬ response.isValid = false := by simp [hvalid]
  simp only [paymentMiddleware, hroute, hacc, hpay, hdec, hsel, hver, bind, Except.bind,
    hnotfalse, if_false, settleAfterHandler, ge_iff_le, hstatus, if_true, flushBuffered]
  cases henv : env.handlerEnd <;>
    simp [henv, pure, Except.pure]

/-- Witness for **C1**: a concrete environment in which the handler answers
503 with a buffered body. -/
theorem handler_error_skips_settle_witness :
    (400 ≤ handlerErrMwEnv.handlerStatus
      ∧ handlerErrMwEnv.verifyOutcome
          = .ok { isValid := true, invalidReason := none, payer := some "CLIENT" })
    ∧ paymentMiddleware handlerErrMwEnv = .ok
        { calledNext := true, verifyCalled := true, settleCalled := false,
          res := { statusCode := handlerErrMwEnv.handlerStatus, xPaymentResponse := none,
                   intercepted := false, endArgs := handlerErrMwEnv.handlerEnd,
                   sent := match handlerErrMwEnv.handlerEnd with
                           | some chunk => [chunk]
                           | none => [] } } :=
  ⟨⟨by decide, rfl⟩,
    handler_error_skips_settle handlerErrMwEnv apiTestPattern "payment-b64"
      fixturePayload fixtureReq
      { isValid := true, invalidReason := none, payer := some "CLIENT" }
      fixtureAccepts (by decide) rfl rfl rfl (by decide) rfl rfl (by decide)⟩

/-- **C2** (counterexample).  A request in which `settle` returns
`success = false`: the middleware sets the `X-PAYMENT-RESPONSE` header
*before* checking `success` (index.ts lines 332-334), so the resulting 402
still carries the header — contradicting "the response carries no
X-PAYMENT-RESPONSE header". -/
theorem settle_failure_sets_header_cx :
    paymentMiddleware settleFailMwEnv = .ok
      { calledNext := true, verifyCalled := true, settleCalled := true,
        res := { statusCode := 402, xPaymentResponse := some failedSettleResponse,
                 intercepted := false,
                 endArgs := some (some (.json402 "invalid_transaction_state" fixtureAccepts)),
                 sent := [some (.json402 "invalid_transaction_state" fixtureAccepts)] } }
    ∧ (some failedSettleResponse : Option SettleResponse) ≠ none := by
  refine ⟨?_, ?_⟩ <;> decide

/-- **C2** (amended).  The middleware sets `X-PAYMENT-RESPONSE` whenever
`settle` returns a `SettleResponse`, successful or not: on `success = false`
the flushed response is a 402 carrying the `errorReason` and the accepts list
*and* the header; only when `settle` throws before headers are flushed does
the 402 go out without the header. -/
theorem payment_response_header_rule (settleOutcome : Except String SettleResponse)
    (headersSent : Bool) (accepts : List PaymentRequirements) (s : ResState)
    (hstatus : s.statusCode < 400) (hint : s.intercepted = true) (hsent : s.sent = [])
    (hxpr : s.xPaymentResponse = none) :
    (∀ sr, settleOutcome = .ok sr →
      (settleAfterHandler settleOutcome headersSent accepts s).res.xPaymentResponse = some sr)
    ∧ (∀ sr, settleOutcome = .ok sr → sr.success = false →
      (settleAfterHandler settleOutcome headersSent accepts s).res.statusCode = 402
      ∧ (settleAfterHandler settleOutcome headersSent accepts s).res.sent
          = [some (.json402 (sr.errorReason.getD "") accepts)])
    ∧ (∀ e, settleOutcome = .error e → headersSent = false →
      (settleAfterHandler settleOutcome headersSent accepts s).res.xPaymentResponse = none
      ∧ (settleAfterHandler settleOutcome headersSent accepts s).res.statusCode = 402
      ∧ (settleAfterHandler settleOutcome headersSent accepts s).res.sent
          = [some (.json402 e accepts)]) := by
  have hnot : ¬ s.statusCode ≥ 400 := by omega
  refine ⟨?_, ?_, ?_⟩
  · intro sr hok
    by_cases hsucc : sr.success = false
    · simp [settleAfterHandler, hnot, hok, hsucc, flushBuffered, resJson, resEnd,
        resStatus, setPaymentResponseHeader, hint]
    · cases harg : s.endArgs <;>
        simp [settleAfterHandler, hnot, hok, hsucc, flushBuffered, resJson, resEnd,
          resStatus, setPaymentResponseHeader, hint, harg]
  · intro sr hok hsucc
    simp [settleAfterHandler, hnot, hok, hsucc, flushBuffered, resJson, resEnd,
      resStatus, setPaymentResponseHeader, hint, hsent]
  · intro e herr hhs
    simp [settleAfterHandler, hnot, herr, hhs, flushBuffered, resJson, resEnd,
      resStatus, setPaymentResponseHeader, hint, hsent, hxpr]

/-- Witness for **C2**'s amended rule at a concrete failed settlement. -/
theorem payment_response_header_rule_witness :
    ((200 : Nat) < 400
      ∧ (settleAfterHandler (.ok failedSettleResponse) false fixtureAccepts
          { statusCode := 200, xPaymentResponse := none, intercepted := true,
            endArgs := some (some (.handlerBody "protected")),
            sent := [] }).res.xPaymentResponse = some failedSettleResponse) :=
  ⟨by decide,
    (payment_response_header_rule (.ok failedSettleResponse) false fixtureAccepts
      { statusCode := 200, xPaymentResponse := none, intercepted := true,
        endArgs := some (some (.handlerBody "protected")), sent := [] }
      (by decide) rfl rfl rfl).1 failedSettleResponse rfl⟩

/-- **C3.**  For every parsed transfer and requirements that reach the amount
check (destination equals the derived receiver ATA, the account fetch
succeeded, the source ATA exists, and the receiver ATA exists or the
transaction creates it), the verifier accepts iff the `TransferChecked` amount
equals `BigInt(maxAmountRequired)` exactly; any mismatch — over- or under-pay
— is rejected with the amount-mismatch reason. -/
theorem transfer_amount_exact_iff (env : IntroEnv) (p : ParsedTransferChecked)
    (req : PaymentRequirements) (hasCreate : Bool) (acct : String → Bool) (n : Nat)
    (hfetch : env.fetchAccounts = .ok acct)
    (hdest : p.destination = env.ataDerive req.asset req.payTo (transferTokenProgram p))
    (hsrc : acct p.source = true)
    (hrecv : acct (env.ataDerive req.asset req.payTo (transferTokenProgram p)) = true
      ∨ hasCreate = true)
    (hamt : bigIntOfString req.maxAmountRequired = .ok n) :
    (verifyTransferCheckedInstruction env p req hasCreate = .ok () ↔ p.amount = n)
    ∧ (p.amount ≠ n →
        verifyTransferCheckedInstruction env p req hasCreate
          = .error amountMismatchErr) := by
  have hrecv2 : ¬ (acct (env.ataDerive req.asset req.payTo (transferTokenProgram p)) = false
      ∧ hasCreate = false) := by
    rcases hrecv with h | h <;> simp [h]
  constructor
  · constructor
    · intro hok
      by_contra hne
      simp [verifyTransferCheckedInstruction, hdest, hfetch, hsrc, hrecv2, hamt, hne,
        throw, throwThe, MonadExceptOf.throw, bind, Except.bind, pure, Except.pure] at hok
    · intro heq
      simp [verifyTransferCheckedInstruction, hdest, hfetch, hsrc, hrecv2, hamt, heq,
        throw, throwThe, MonadExceptOf.throw, bind, Except.bind, pure, Except.pure]
  · intro hne
    simp [verifyTransferCheckedInstruction, hdest, hfetch, hsrc, hrecv2, hamt, hne,
      throw, throwThe, MonadExceptOf.throw, bind, Except.bind, pure, Except.pure]

/-- Witness for **C3** at the fixture transfer of exactly 1800 units (and the
underpaying variant rejected with the amount-mismatch reason). -/
theorem transfer_amount_exact_iff_witness :
    (bigIntOfString fixtureReq.maxAmountRequired = .ok 1800
      ∧ fixtureAcct fixtureParsedTransfer.source = true)
    ∧ ((verifyTransferCheckedInstruction fixtureIntroEnv fixtureParsedTransfer
          fixtureReq false = .ok () ↔ fixtureParsedTransfer.amount = 1800)
      ∧ (fixtureParsedTransfer.amount ≠ 1800 →
          verifyTransferCheckedInstruction fixtureIntroEnv fixtureParsedTransfer
            fixtureReq false = .error amountMismatchErr)) :=
  ⟨⟨by decide, by decide⟩,
    transfer_amount_exact_iff fixtureIntroEnv fixtureParsedTransfer fixtureReq false
      fixtureAcct 1800 rfl (by decide) (by decide) (Or.inl (by decide)) (by decide)⟩

/-- **C4** (counterexample).  A transaction whose instruction[1] belongs to
the compute-budget program with discriminator 3 but truncated data: the
unguarded `parseSetComputeUnitPriceInstruction` throws a codec error, which
`verify` reports as `unexpected_verify_error` — not as
`invalid_..._compute_price_instruction` as the claim states. -/
theorem compute_price_parse_cx :
    verify truncatedPriceVerifyEnv fixturePayload fixtureReq
      = { isValid := false, invalidReason := some "unexpected_verify_error",
          payer := some "CLIENT" }
    ∧ truncatedPriceIns.programAddress = COMPUTE_BUDGET_PROGRAM_ADDRESS
    ∧ truncatedPriceIns.data.head? = some 3
    ∧ some "unexpected_verify_error" ≠ some computePriceErr := by
  refine ⟨?_, ?_, ?_, ?_⟩ <;> decide

/-- **C4** (amended).  Instruction[1] must belong to the compute-budget
program with first data byte 3, otherwise the compute-price reason is raised;
when the guard passes, a malformed body makes the unguarded parse throw a
codec error that is not an x402 reason (surfacing as
`unexpected_verify_error`); and a parsed `microLamports` above 5 000 000 is
rejected with the too-high reason, at or below it the check passes. -/
theorem compute_price_checks (i : SvmInstruction) :
    (¬ (i.programAddress = COMPUTE_BUDGET_PROGRAM_ADDRESS ∧ i.data.head? = some 3) →
      verifyComputePriceInstruction i = .error computePriceErr)
    ∧ (i.programAddress = COMPUTE_BUDGET_PROGRAM_ADDRESS → i.data.head? = some 3 →
        i.data.length < 9 →
        verifyComputePriceInstruction i = .error codecDecodeErr
        ∧ codecDecodeErr ∉ ErrorReasons)
    ∧ (i.programAddress = COMPUTE_BUDGET_PROGRAM_ADDRESS → i.data.head? = some 3 →
        9 ≤ i.data.length →
        (verifyComputePriceInstruction i = .error computePriceTooHighErr
          ↔ 5 * 1000000 < leToNat ((i.data.drop 1).take 8))
        ∧ (leToNat ((i.data.drop 1).take 8) ≤ 5 * 1000000 →
            verifyComputePriceInstruction i = .ok ())) := by
  refine ⟨?_, ?_, ?_⟩
  · intro hguard
    simp [verifyComputePriceInstruction, hguard, throw, throwThe, MonadExceptOf.throw,
      bind, Except.bind, pure, Except.pure]
  · intro hprog hdisc hlen
    refine ⟨?_, by decide⟩
    have hnine : ¬ 9 ≤ i.data.length := by omega
    simp [verifyComputePriceInstruction, hprog, hdisc,
      parseSetComputeUnitPriceMicroLamports, hnine, throw, throwThe,
      MonadExceptOf.throw, bind, Except.bind, pure, Except.pure]
  · intro hprog hdisc hlen
    have hc : ¬ ¬ (i.programAddress = COMPUTE_BUDGET_PROGRAM_ADDRESS
        ∧ i.data.head? = some 3) := by
      simp [hprog, hdisc]
    have hbranch : verifyComputePriceInstruction i =
        if leToNat ((i.data.drop 1).take 8) > 5 * 1000000
        then .error computePriceTooHighErr else .ok () := by
      simp only [verifyComputePriceInstruction, parseSetComputeUnitPriceMicroLamports,
        if_neg hc, if_pos hlen, bind, Except.bind, pure, Except.pure, throw, throwThe,
        MonadExceptOf.throw]
    rw [hbranch]
    constructor
    · constructor
      · intro hres
        by_contra hle
        rw [if_neg hle] at hres
        cases hres
      · intro hgt
        rw [if_pos hgt]
    · intro hle
      have hngt : ¬ leToNat ((i.data.drop 1).take 8) > 5 * 1000000 := by omega
      rw [if_neg hngt]

/-- Witness for **C4**'s amended rule: the 6 000 000-microlamport fixture is
rejected as too high, and the 1-microlamport fixture passes. -/
theorem compute_price_checks_witness :
    (highPriceIns.programAddress = COMPUTE_BUDGET_PROGRAM_ADDRESS
      ∧ highPriceIns.data.head? = some 3 ∧ 9 ≤ highPriceIns.data.length)
    ∧ verifyComputePriceInstruction highPriceIns = .error computePriceTooHighErr
    ∧ verifyComputePriceInstruction okPriceIns = .ok () :=
  ⟨⟨rfl, rfl, by decide⟩,
    ((compute_price_checks highPriceIns).2.2 rfl rfl (by decide)).1.mpr (by decide),
    ((compute_price_checks okPriceIns).2.2 rfl rfl (by decide)).2 (by decide)⟩

/-- Characterization of the inner try block of `verifyCreateATAInstruction`:
the two instruction-shape assertions followed by the parse. -/
theorem createAtaInner (i : SvmInstruction) :
    (do
      assertIsInstructionWithAccounts i
      assertIsInstructionWithData i
      parseCreateAssociatedTokenInstruction i : Except String ParsedCreateAta)
    = if i.accounts = [] then .error "instruction has no accounts"
      else if i.data = [] then .error "instruction has no data"
      else parseCreateAssociatedTokenInstruction i := by
  by_cases h1 : i.accounts = [] <;> by_cases h2 : i.data = [] <;>
    simp [assertIsInstructionWithAccounts, assertIsInstructionWithData, h1, h2,
      bind, Except.bind, pure, Except.pure]

/-- A successful create-ATA parse implies the account and data lists are long
enough (so the shape assertions cannot fail). -/
theorem parseCreateAta_ok_lengths {i : SvmInstruction} {pca : ParsedCreateAta}
    (h : parseCreateAssociatedTokenInstruction i = .ok pca) :
    6 ≤ i.accounts.length ∧ 1 ≤ i.data.length := by
  by_cases hc : 6 ≤ i.accounts.length ∧ 1 ≤ i.data.length
  · exact hc
  · simp [parseCreateAssociatedTokenInstruction, hc] at h

/-- Classification of `verifyCreateATAInstruction` by the parse outcome. -/
theorem verifyCreateATA_classify (i : SvmInstruction) (req : PaymentRequirements) :
    (∀ e, parseCreateAssociatedTokenInstruction i = .error e →
      verifyCreateATAInstruction i req = .error createAtaErr)
    ∧ (∀ pca, parseCreateAssociatedTokenInstruction i = .ok pca →
      verifyCreateATAInstruction i req =
        (if pca.owner ≠ req.payTo then .error createAtaPayeeErr
         else if pca.mint ≠ req.asset then .error createAtaAssetErr
         else .ok ())) := by
  constructor
  · intro e hp
    by_cases h1 : i.accounts = [] <;> by_cases h2 : i.data = [] <;>
      simp [verifyCreateATAInstruction, assertIsInstructionWithAccounts,
        assertIsInstructionWithData, h1, h2, hp,
        bind, Except.bind, pure, Except.pure, throw, throwThe, MonadExceptOf.throw]
  · intro pca hp
    obtain ⟨ha, hd⟩ := parseCreateAta_ok_lengths hp
    have h1 : ¬ i.accounts = [] := by
      intro h
      rw [h] at ha
      simp at ha
    have h2 : ¬ i.data = [] := by
      intro h
      rw [h] at hd
      simp at hd
    by_cases howner : pca.owner = req.payTo <;> by_cases hmint : pca.mint = req.asset <;>
      simp [verifyCreateATAInstruction, assertIsInstructionWithAccounts,
        assertIsInstructionWithData, h1, h2, hp, howner, hmint,
        bind, Except.bind, pure, Except.pure, throw, throwThe, MonadExceptOf.throw]

/-- **C5.**  The introspector rejects with the instruction-length reason
unless the instruction count is exactly 3 or 4; with 4 instructions (once the
compute-budget checks pass) instruction[2] must parse as a
`CreateAssociatedToken` instruction — otherwise the create-ATA reason — whose
owner must equal `payTo` (incorrect-payee reason) and whose mint must equal
`asset` (incorrect-asset reason); when all of that holds, the validation
continues with the transfer taken from instruction[3]. -/
theorem instruction_shape_checks (env : IntroEnv) (instructions : List SvmInstruction)
    (req : PaymentRequirements) :
    (instructions.length ≠ 3 ∧ instructions.length ≠ 4 →
      verifyTransactionInstructions env instructions req = .error instructionsLengthErr)
    ∧ (instructions.length = 4 →
       verifyComputeLimitInstruction (instructions.getD 0 default) = .ok () →
       verifyComputePriceInstruction (instructions.getD 1 default) = .ok () →
        ((∀ e, parseCreateAssociatedTokenInstruction (instructions.getD 2 default)
              = .error e →
            verifyTransactionInstructions env instructions req = .error createAtaErr)
        ∧ (∀ pca, parseCreateAssociatedTokenInstruction (instructions.getD 2 default)
              = .ok pca → pca.owner ≠ req.payTo →
            verifyTransactionInstructions env instructions req = .error createAtaPayeeErr)
        ∧ (∀ pca, parseCreateAssociatedTokenInstruction (instructions.getD 2 default)
              = .ok pca → pca.owner = req.payTo → pca.mint ≠ req.asset →
            verifyTransactionInstructions env instructions req = .error createAtaAssetErr)
        ∧ (∀ pca, parseCreateAssociatedTokenInstruction (instructions.getD 2 default)
              = .ok pca → pca.owner = req.payTo → pca.mint = req.asset →
            verifyTransactionInstructions env instructions req
              = verifyTransferInstruction env (instructions.getD 3 default) req true))) := by
  constructor
  · intro hcond
    simp only [verifyTransactionInstructions, if_pos hcond, bind, Except.bind,
      throw, throwThe, MonadExceptOf.throw]
  · intro h4 hlimit hprice
    have hcondn : ¬ (instructions.length ≠ 3 ∧ instructions.length ≠ 4) := by
      simp [h4]
    have h3n : ¬ instructions.length = 3 := by omega
    have hchain : verifyTransactionInstructions env instructions req
        = (do
            verifyCreateATAInstruction (instructions.getD 2 default) req
            verifyTransferInstruction env (instructions.getD 3 default) req true) := by
      simp only [verifyTransactionInstructions, if_neg hcondn, hlimit, hprice,
        if_neg h3n, bind, Except.bind, pure, Except.pure]
    refine ⟨?_, ?_, ?_, ?_⟩
    · intro e hp
      have hclass := (verifyCreateATA_classify (instructions.getD 2 default) req).1 e hp
      rw [hchain]
      simp only [bind, Except.bind]
      rw [hclass]
    · intro pca hp howner
      have hclass := (verifyCreateATA_classify (instructions.getD 2 default) req).2 pca hp
      rw [hchain]
      simp only [bind, Except.bind]
      rw [hclass, if_pos howner]
    · intro pca hp howner hmint
      have hclass := (verifyCreateATA_classify (instructions.getD 2 default) req).2 pca hp
      rw [hchain]
      simp only [bind, Except.bind]
      have ho : ¬ pca.owner ≠ req.payTo := by simp [howner]
      rw [hclass, if_neg ho, if_pos hmint]
    · intro pca hp howner hmint
      have hclass := (verifyCreateATA_classify (instructions.getD 2 default) req).2 pca hp
      rw [hchain]
      simp only [bind, Except.bind]
      have ho : ¬ pca.owner ≠ req.payTo := by simp [howner]
      have hm : ¬ pca.mint ≠ req.asset := by simp [hmint]
      rw [hclass, if_neg ho, if_neg hm]

/-- Witness for **C5** on the 4-instruction fixture transaction: the shape
checks pass and the validation continues with the transfer at index 3. -/
theorem instruction_shape_checks_witness :
    (fixtureTx4.length = 4
      ∧ verifyComputeLimitInstruction (fixtureTx4.getD 0 default) = .ok ()
      ∧ verifyComputePriceInstruction (fixtureTx4.getD 1 default) = .ok ()
      ∧ parseCreateAssociatedTokenInstruction (fixtureTx4.getD 2 default)
          = .ok { owner := "PAYTO", mint := "ASSET" })
    ∧ verifyTransactionInstructions fixtureIntroEnv fixtureTx4 fixtureReq
        = verifyTransferInstruction fixtureIntroEnv (fixtureTx4.getD 3 default)
            fixtureReq true :=
  ⟨⟨by decide, by decide, by decide, by decide⟩,
    ((instruction_shape_checks fixtureIntroEnv fixtureTx4 fixtureReq).2 (by decide)
        (by decide) (by decide)).2.2.2
      { owner := "PAYTO", mint := "ASSET" } (by decide) rfl rfl⟩

/-- A successful verify pipeline implies the requirement's network is one of
the two supported Solana networks and the payload's transaction decoded. -/
theorem verifyPipeline_ok_inv (env : VerifyEnv) (p : PaymentPayload)
    (r : PaymentRequirements) (x : String) (h : verifyPipeline env p r = .ok x) :
    (r.network = "solana-devnet" ∨ r.network = "solana") ∧ env.decodedTx ≠ none := by
  by_cases hsch : p.scheme ≠ SCHEME ∨ r.scheme ≠ SCHEME
  · exfalso
    simp [verifyPipeline, verifySchemesAndNetworks, hsch, bind, Except.bind,
      throw, throwThe, MonadExceptOf.throw] at h
  by_cases hnet : p.network ≠ r.network ∨ r.network ∉ SupportedSVMNetworks
  · exfalso
    simp [verifyPipeline, verifySchemesAndNetworks, hsch, hnet, bind, Except.bind,
      pure, Except.pure, throw, throwThe, MonadExceptOf.throw] at h
  constructor
  · push_neg at hnet
    have hmem : r.network ∈ SupportedSVMNetworks := hnet.2
    simpa [SupportedSVMNetworks] using hmem
  · intro hnone
    simp [verifyPipeline, verifySchemesAndNetworks, hsch, hnet, hnone,
      decodeTransactionFromPayload, bind, Except.bind, pure, Except.pure,
      throw, throwThe, MonadExceptOf.throw] at h

/-- An invalid verification always carries a reason from the closed
`ErrorReasons` set. -/
theorem verify_invalid_reason (env : VerifyEnv) (p : PaymentPayload)
    (r : PaymentRequirements) (h : (verify env p r).isValid = false) :
    ∃ er, (verify env p r).invalidReason = some er ∧ er ∈ ErrorReasons := by
  unfold verify at h ⊢
  cases hp : verifyPipeline env p r with
  | ok x =>
    rw [hp] at h
    simp at h
  | error e =>
    by_cases he : e ∈ ErrorReasons
    · exact ⟨e, by simp [he], he⟩
    · exact ⟨"unexpected_verify_error", by simp [he], by decide⟩

/-- A send-and-confirm result that reports failure carries a reason from the
closed `ErrorReasons` set. -/
theorem sendAndConfirm_failure_reason (env : SettleEnv) (cres : ConfirmResult)
    (h : sendAndConfirmSignedTransaction env = .ok cres)
    (hsucc : cres.success = false) :
    ∃ er, cres.errorReason = some er ∧ er ∈ ErrorReasons := by
  unfold sendAndConfirmSignedTransaction at h
  cases hsend : env.sendTx with
  | error e =>
    rw [hsend] at h
    simp [bind, Except.bind] at h
  | ok u =>
    rw [hsend] at h
    simp only [bind, Except.bind] at h
    unfold confirmSignedTransaction at h
    cases henv : env.confirm <;> rw [henv] at h <;> cases h
    · simp at hsucc
    · exact ⟨_, rfl, by decide⟩
    · exact ⟨_, rfl, by decide⟩

/-- Evaluation of `settle` under a successful fee-payer signing step: either
verification failed and the early verify-failure response is returned, or the
transaction decoded and the result is determined by send-and-confirm. -/
theorem settle_eval (env : SettleEnv) (p : PaymentPayload) (r : PaymentRequirements)
    (hsign : env.signTx = .ok ()) :
    ((verify env.verifyEnv p r).isValid = false
      ∧ settle env p r = .ok
          { success := false, errorReason := (verify env.verifyEnv p r).invalidReason,
            payer := none, transaction := "", network := p.network })
    ∨ (∃ tx, env.verifyEnv.decodedTx = some tx
        ∧ (verify env.verifyEnv p r).isValid = true
        ∧ settle env p r = .ok
            (match sendAndConfirmSignedTransaction env with
             | .ok cres =>
               { success := cres.success, errorReason := cres.errorReason,
                 payer := some (getTokenPayerFromTransaction tx),
                 transaction := cres.signature, network := p.network }
             | .error _ =>
               { success := false, errorReason := some "unexpected_settle_error",
                 payer := some (getTokenPayerFromTransaction tx),
                 transaction := env.signature, network := p.network })) := by
  cases hvalid : (verify env.verifyEnv p r).isValid
  · left
    refine ⟨rfl, ?_⟩
    simp [settle, hvalid, bind, Except.bind, pure, Except.pure]
  · right
    have hpipe : ∃ x, verifyPipeline env.verifyEnv p r = .ok x := by
      cases hp : verifyPipeline env.verifyEnv p r with
      | ok x => exact ⟨x, rfl⟩
      | error e =>
        exfalso
        have : (verify env.verifyEnv p r).isValid = false := by
          unfold verify
          rw [hp]
          by_cases he : e ∈ ErrorReasons <;> simp [he]
        rw [hvalid] at this
        cases this
    obtain ⟨x, hp⟩ := hpipe
    obtain ⟨hnet, hdec⟩ := verifyPipeline_ok_inv env.verifyEnv p r x hp
    obtain ⟨tx, htx⟩ : ∃ tx, env.verifyEnv.decodedTx = some tx := by
      cases hd : env.verifyEnv.decodedTx with
      | none => exact absurd hd hdec
      | some tx => exact ⟨tx, rfl⟩
    refine ⟨tx, htx, rfl, ?_⟩
    have hnf : ¬ (verify env.verifyEnv p r).isValid = false := by simp [hvalid]
    have hrpc : getRpcClient r.network = .ok () := by
      rcases hnet with h | h <;> simp [getRpcClient, h]
    have hrpcs : getRpcSubscriptions r.network = .ok () := by
      rcases hnet with h | h <;> simp [getRpcSubscriptions, h]
    simp only [settle, hnf, if_neg, if_false, htx, decodeTransactionFromPayload, hsign,
      hrpc, hrpcs, bind, Except.bind, pure, Except.pure]
    cases hsc : sendAndConfirmSignedTransaction env <;> simp [hsc]

/-- **C6.**  `verify` and `settle` never throw: `verify` classifies every
internal error — reasons from the closed set are reported verbatim as
`invalidReason`, anything else as `unexpected_verify_error` — and `settle`
(whose fee-payer signing step succeeds) always returns a `SettleResponse`
whose failure reason is drawn from the closed set (with
`unexpected_settle_error` for unrecognized errors). -/
theorem verify_settle_no_throw (env : SettleEnv) (p : PaymentPayload)
    (r : PaymentRequirements) (hsign : env.signTx = .ok ()) :
    (∀ e, verifyPipeline env.verifyEnv p r = .error e → e ∈ ErrorReasons →
      verify env.verifyEnv p r
        = { isValid := false, invalidReason := some e,
            payer := payerOnFailure env.verifyEnv })
    ∧ (∀ e, verifyPipeline env.verifyEnv p r = .error e → e ∉ ErrorReasons →
      verify env.verifyEnv p r
        = { isValid := false, invalidReason := some "unexpected_verify_error",
            payer := payerOnFailure env.verifyEnv })
    ∧ (∃ resp, settle env p r = .ok resp)
    ∧ (∀ resp, settle env p r = .ok resp → resp.success = false →
        ∃ er, resp.errorReason = some er ∧ er ∈ ErrorReasons) := by
  refine ⟨?_, ?_, ?_, ?_⟩
  · intro e hp he
    simp [verify, hp, he]
  · intro e hp he
    simp [verify, hp, he]
  · rcases settle_eval env p r hsign with ⟨_, hs⟩ | ⟨tx, _, _, hs⟩
    · exact ⟨_, hs⟩
    · exact ⟨_, hs⟩
  · intro resp hresp hsucc
    rcases settle_eval env p r hsign with ⟨hinv, hs⟩ | ⟨tx, htx, hvalid, hs⟩
    · rw [hresp] at hs
      have heq := Except.ok.inj hs
      obtain ⟨er, her, hmem⟩ := verify_invalid_reason env.verifyEnv p r hinv
      refine ⟨er, ?_, hmem⟩
      rw [heq]
      exact her
    · rw [hresp] at hs
      have heq := Except.ok.inj hs
      cases hsc : sendAndConfirmSignedTransaction env with
      | ok cres =>
        rw [hsc] at heq
        have hcs : cres.success = false := by
          rw [heq] at hsucc
          exact hsucc
        obtain ⟨er, her, hmem⟩ := sendAndConfirm_failure_reason env cres hsc hcs
        refine ⟨er, ?_, hmem⟩
        rw [heq]
        exact her
      | error e =>
        rw [hsc] at heq
        refine ⟨"unexpected_settle_error", ?_, by decide⟩
        rw [heq]

/-- Witness for **C6** on the all-successful settle fixture. -/
theorem verify_settle_no_throw_witness :
    okSettleEnv.signTx = .ok ()
    ∧ (∃ resp, settle okSettleEnv fixturePayload fixtureReq = .ok resp) :=
  ⟨rfl, (verify_settle_no_throw okSettleEnv fixturePayload fixtureReq rfl).2.2.1⟩

/-- **C8.**  `confirmSignedTransaction` returns (rather than throws) exactly
these outcomes: confirmation → `success = true`; a block-height-exceeded
rejection → `settle_exact_svm_block_height_exceeded`; the 60-second abort →
`settle_exact_svm_transaction_confirmation_timed_out`; any other error is
rethrown, surfacing in `settle` as `unexpected_settle_error`. -/
theorem confirm_outcome_classification (env : SettleEnv) :
    (env.confirm = .confirmed →
      confirmSignedTransaction env
        = .ok { success := true, errorReason := none, signature := env.signature })
    ∧ (env.confirm = .blockHeightExceeded →
      confirmSignedTransaction env
        = .ok { success := false,
                errorReason := some "settle_exact_svm_block_height_exceeded",
                signature := env.signature })
    ∧ (env.confirm = .aborted →
      confirmSignedTransaction env
        = .ok { success := false,
                errorReason := some "settle_exact_svm_transaction_confirmation_timed_out",
                signature := env.signature })
    ∧ (∀ e, env.confirm = .failed e → confirmSignedTransaction env = .error e)
    ∧ (∀ e p r resp, env.confirm = .failed e → env.sendTx = .ok () →
        env.signTx = .ok () → (verify env.verifyEnv p r).isValid = true →
        settle env p r = .ok resp →
        resp.success = false ∧ resp.errorReason = some "unexpected_settle_error") := by
  refine ⟨?_, ?_, ?_, ?_, ?_⟩
  · intro h
    simp [confirmSignedTransaction, h]
  · intro h
    simp [confirmSignedTransaction, h]
  · intro h
    simp [confirmSignedTransaction, h]
  · intro e h
    simp [confirmSignedTransaction, h]
  · intro e p r resp hc hsend hsign hvalid hresp
    have hsc : sendAndConfirmSignedTransaction env = .error e := by
      unfold sendAndConfirmSignedTransaction
      rw [hsend]
      simp only [bind, Except.bind]
      simp [confirmSignedTransaction, hc]
    rcases settle_eval env p r hsign with ⟨hinv, _⟩ | ⟨tx, htx, _, hs⟩
    · rw [hvalid] at hinv
      cases hinv
    · rw [hresp] at hs
      have heq := Except.ok.inj hs
      rw [hsc] at heq
      rw [heq]
      exact ⟨rfl, rfl⟩

/-- Witness for **C8** on the fixture whose confirmation is aborted by the
60-second timer. -/
theorem confirm_outcome_classification_witness :
    abortSettleEnv.confirm = .aborted
    ∧ confirmSignedTransaction abortSettleEnv
        = .ok { success := false,
                errorReason := some "settle_exact_svm_transaction_confirmation_timed_out",
                signature := abortSettleEnv.signature } :=
  ⟨rfl, (confirm_outcome_classification abortSettleEnv).2.2.1 rfl⟩

end X402
